import Mathlib

/-!
# Couchbase node recovery: the reconciliation loop and its backoff trackers

A shallow embedding of `src/src/funcs.go` and of the loop of `src/src/main.go`.

* Go `int` counters are `Int`. The counters are reset by the tracker checks
  long before they could approach the 64-bit range, so no wrap-around is
  modelled.
* A `time.Time` is an `Int`: nanoseconds since the zero instant, so that
  `IsZero` is equality with `0`. Every call of `time.Now()` is a separate
  input of the function that makes it.
* Pointer arguments (`*time.Time`, `*int`, `*map[string]int`) become values
  that are passed in and returned.
* Side effects (log lines, HTTP requests, sleeps) are returned as a list of
  `Event`s in program order. What the collaborator answers is an input.
-/

namespace CouchbaseRecovery

/-! ## Time -/

/-- Go `time.Time`: nanoseconds since the zero instant. -/
abbrev Time := Int

/-- Go `time.Duration`: a signed 64-bit count of nanoseconds. -/
abbrev Duration := Int

/-- Constant `time.Minute`. -/
def minute : Duration := 60 * 1000000000

/-- Constant `time.Hour`. -/
def hour : Duration := 3600 * 1000000000

/-- Largest `time.Duration`. -/
def maxDuration : Duration := 9223372036854775807

/-- Smallest `time.Duration`. -/
def minDuration : Duration := -9223372036854775808

/-- Go `Time.IsZero`. -/
def isZero (t : Time) : Bool := t == 0

/-- Go `time.Time{}`, the zero instant. -/
def zeroTime : Time := 0

/-- Go `time.Since(t)`, with `now` the value of the `time.Now()` call it makes:
`now.Sub(t)`, which saturates at the ends of the `Duration` range. -/
def timeSince (now t : Time) : Duration :=
  if now - t > maxDuration then maxDuration
  else if now - t < minDuration then minDuration
  else now - t

/-! ## Data model (`funcs.go:14-26`) -/

/-- Go struct `nodeMap`. -/
structure nodeMap where
  ClusterMembership : String
  RecoveryType : String
  Status : String
  Hostname : String
  OtpNode : String
  Services : List String
deriving DecidableEq, Repr

/-- Go `nodeMap{}`, the zero value. -/
def nodeMap.zero : nodeMap := ⟨"", "", "", "", "", []⟩

/-- Go struct `nodesResponse`. -/
structure nodesResponse where
  Name : String
  Nodes : List nodeMap
deriving DecidableEq, Repr

/-! ## Errors, observable events and collaborator answers -/

/-- Go `error` values that occur in the program. -/
inductive GoError where
  /-- an error made by `net/http`, `io` or `encoding/json`, carried as text -/
  | external (msg : String)
  /-- `fmt.Errorf("HTTP request failed with status: %d and body %s", ...)` -/
  | httpStatus (statusCode : Int) (body : Option String)
  /-- `fmt.Errorf("no nodes provided for rebalance")` -/
  | noNodes
deriving DecidableEq, Repr

/-- An argument of a log call. -/
inductive LogArg where
  | str (s : String)
  | int (n : Int)
  | strs (l : List String)
  | err (e : GoError)
deriving DecidableEq, Repr

/-- Go `url.Values` as the program builds them: the keys set, in order. -/
abbrev Form := List (String × String)

/-- The side effects of the program. -/
inductive Event where
  /-- `log.Printf` or `log.Println` with its format (or first argument) and
  its remaining arguments -/
  | log (format : String) (args : List LogArg)
  /-- `log.Fatal(err)`: the error is printed and the process exits -/
  | fatal (e : GoError)
  /-- a call of `doCbRequest`: a GET when `form` is `none`, else a POST -/
  | request (apiPath : String) (form : Option Form)
  /-- `time.Sleep d` -/
  | sleep (d : Duration)
deriving DecidableEq, Repr

/-- What `doCbRequest` returns: `([]byte, int, error)`. -/
structure HttpResult where
  body : Option String
  statusCode : Int
  err : Option GoError
deriving DecidableEq, Repr

/-- Constant `http.StatusOK`. -/
def statusOK : Int := 200

/-- Function `doCbRequest` (`funcs.go:45-77`): the request is an event, the
answer `resp` is what the transport and the collaborator produce. -/
def doCbRequest (apiPath : String) (form : Option Form) (resp : HttpResult) :
    HttpResult × List Event :=
  (resp, [Event.request apiPath form])

/-! ## Go `map[string]int` -/

/-- Replace the value of key `k`, or add the key when it is absent. -/
def assocSet (k : String) (v : Int) : List (String × Int) → List (String × Int)
  | [] => [(k, v)]
  | (k', v') :: rest => if k' = k then (k, v) :: rest else (k', v') :: assocSet k v rest

/-- Value stored under key `k`, if any. -/
def assocGet (k : String) : List (String × Int) → Option Int
  | [] => none
  | (k', v') :: rest => if k' = k then some v' else assocGet k rest

/-- A Go `map[string]int`: its entries, in the order in which `range` visits
them (an order Go leaves unspecified), each key at most once. -/
structure GoMap where
  entries : List (String × Int)
  nodup : (entries.map Prod.fst).Nodup

/-- Go `make(map[string]int)`. -/
def GoMap.empty : GoMap := ⟨[], List.nodup_nil⟩

/-- Go `m[k]` as an expression: the zero value when the key is absent. -/
def GoMap.get (m : GoMap) (k : String) : Int :=
  match assocGet k m.entries with
  | some v => v
  | none => 0

/-- Go `m[k] = v`. -/
def GoMap.set (m : GoMap) (k : String) (v : Int) : GoMap :=
  ⟨assocSet k v m.entries, by
    have keys : ∀ l : List (String × Int), (assocSet k v l).map Prod.fst =
        if k ∈ l.map Prod.fst then l.map Prod.fst else l.map Prod.fst ++ [k] := by
      intro l
      induction l with
      | nil => simp [assocSet]
      | cons hd tl ih =>
        obtain ⟨k', v'⟩ := hd
        by_cases h : k' = k
        · subst h; simp [assocSet]
        · have h' : ¬ k = k' := fun e => h e.symm
          simp only [assocSet, h, if_false, List.map_cons, ih, List.mem_cons, h', false_or]
          split <;> simp
    rw [keys]
    split
    · exact m.nodup
    · rename_i hk
      rw [List.nodup_append]
      refine ⟨m.nodup, List.nodup_singleton k, ?_⟩
      intro a ha hb
      simp only [List.mem_singleton] at hb
      subst hb
      exact hk ha⟩

/-! ## Collaborator calls (`funcs.go:28-134`) -/

/-- Function `getNodesState` (`funcs.go:30-42`). `pools` is the answer to the
GET, `unmarshal` the outcome of `json.Unmarshal` on its body. The result is
`none` when `log.Fatal` ends the process inside the function. -/
def getNodesState (pools : HttpResult) (unmarshal : Except GoError nodesResponse) :
    Option (Except GoError nodesResponse) × List Event :=
  let (r, ev) := doCbRequest "/pools/default" none pools
  match r.err with
  | some e => (none, ev ++ [Event.fatal e])
  | none =>
    match unmarshal with
    | Except.error e => (some (Except.error e), ev ++ [Event.log "Cannot unmarshal JSON." []])
    | Except.ok result => (some (Except.ok result), ev)

/-- Function `recoverNode` (`funcs.go:80-100`). -/
def recoverNode (node : nodeMap) (isDryRun : Bool) (resp : HttpResult) :
    (Option String × Option GoError) × List Event :=
  let form : Form := [("otpNode", node.OtpNode), ("recoveryType", "full")]
  if !isDryRun then
    let (r, ev) := doCbRequest "/controller/setRecoveryType" (some form) resp
    let ev := Event.log "recovering node %s.\n" [LogArg.str node.Hostname] :: ev
    match r.err with
    | some e => ((r.body, some e), ev)
    | none =>
      if r.statusCode ≠ statusOK then
        ((r.body, some (GoError.httpStatus r.statusCode r.body)), ev)
      else ((r.body, none), ev)
  else
    ((none, none), [Event.log "Would have recovered node: %s.\n" [LogArg.str node.Hostname]])

/-- Function `rebalanceCluster` (`funcs.go:105-134`); `strings.Join` is
`String.intercalate`. -/
def rebalanceCluster (nodeNames : List String) (isDryRun : Bool) (resp : HttpResult) :
    (Option String × Option GoError) × List Event :=
  if nodeNames.length = 0 then ((none, some GoError.noNodes), [])
  else
    let ev0 := [Event.log "List of nodes we are passing for rebalance: \n%v\n\n"
      [LogArg.strs nodeNames]]
    let formattedNodes := String.intercalate "," nodeNames
    let form : Form := [("knownNodes", formattedNodes)]
    if !isDryRun then
      let (r, ev) := doCbRequest "/controller/rebalance" (some form) resp
      match r.err with
      | some e => ((r.body, some e), ev0 ++ ev)
      | none =>
        if r.statusCode ≠ statusOK then
          ((r.body, some (GoError.httpStatus r.statusCode r.body)), ev0 ++ ev)
        else ((r.body, none), ev0 ++ ev)
    else
      ((none, none), ev0 ++ [Event.log "Would have rebalanced the cluster.\n" []])

/-! ## Failure detector (`funcs.go:136-167`) -/

/-- Function `nodesResponse.getFailedNode` (`funcs.go:138-158`): the loop keeps
a count and the last node seen that is not `"active"`. -/
def getFailedNode (resp : nodesResponse) : nodeMap × List Event :=
  let acc := resp.Nodes.foldl
    (fun (acc : Int × nodeMap) node =>
      if node.ClusterMembership ≠ "active" then (acc.1 + 1, node) else acc)
    (0, nodeMap.zero)
  if acc.1 > 1 then
    (nodeMap.zero, [Event.log "Too many failed nodes, backing off for 5 minutes." []])
  else if acc.1 = 0 then
    (nodeMap.zero, [Event.log "Cluster in a healthy state, sleeping for 5 minutes." []])
  else (acc.2, [])

/-- Function `nodesResponse.getAllNodes` (`funcs.go:161-167`): a slice of
`len(resp.Nodes)` empty strings, then entry `i` is assigned for each node. -/
def getAllNodes (resp : nodesResponse) : List String :=
  resp.Nodes.enum.foldl
    (fun (otpNodes : List String) (p : Nat × nodeMap) => otpNodes.set p.1 p.2.OtpNode)
    (List.replicate resp.Nodes.length "")

/-! ## Backoff trackers (`funcs.go:169-232`) -/

/-- Function `checkForMultipleRebalances` (`funcs.go:171-179`): the first entry
that `range` visits with `value >= valueToCompare` ends the loop. -/
def checkForMultipleRebalances (m : GoMap) (valueToCompare : Int) :
    (Bool × String) × List Event :=
  match m.entries.find? (fun e => decide (e.2 ≥ valueToCompare)) with
  | some (i, _) =>
    ((true, i), [Event.log "%s has been rebalanced more than %d times.\n"
      [LogArg.str i, LogArg.int valueToCompare]])
  | none => ((false, ""), [])

/-- Function `handleClusterRebalanceBackoff` (`funcs.go:183-208`). `nowSince` is
the clock reading inside `time.Since` (line 193), `nowReset` the one of
`time.Now()` on line 197. Returns the new `*startTime` and `*count`. -/
def handleClusterRebalanceBackoff (nowSince nowReset : Time) (startTime : Time) (count : Int) :
    (Time × Int) × List Event :=
  if isZero startTime then ((startTime, count), [])
  else
    let timeSince := timeSince nowSince startTime
    if timeSince ≥ 2 * hour then
      ((nowReset, 0), [Event.log
        "Resetting timer for cluster rebalance count as we have passed the 2 hour mark." []])
    else if count ≥ 3 then
      ((zeroTime, 0),
        [Event.log "Too many CLUSTER rebalance attempts, backing off for 4 hours." [],
         Event.sleep (4 * hour)])
    else ((startTime, count), [])

/-- Function `handleNodeRebalanceBackoff` (`funcs.go:212-232`). `nowSince` is
the clock reading inside `time.Since` (line 220), `nowReset` the one of
`time.Now()` on line 224. Returns the new `*startTime` and `*m`. -/
def handleNodeRebalanceBackoff (nowSince nowReset : Time) (startTime : Time) (m : GoMap) :
    (Time × GoMap) × List Event :=
  if isZero startTime then ((startTime, m), [])
  else
    let (r, ev) := checkForMultipleRebalances m 2
    let isTooManyRebalances := r.1
    let node := r.2
    let timeSince := timeSince nowSince startTime
    if timeSince ≥ 2 * hour then
      ((nowReset, GoMap.empty),
        ev ++ [Event.log "Clearing node to rebalance count map and resetting timer." []])
    else if isTooManyRebalances then
      ((zeroTime, m.set node 0),
        ev ++ [Event.log "Too many SINGLE NODE rebalance attempts. Backing off for 4 hours." [],
          Event.sleep (4 * hour)])
    else ((startTime, m), ev)

/-! ## Control loop (`main.go:46-103`) -/

/-- The variables of `main` that live across iterations (`main.go:46-51`);
`clusterStart` and `nodeStart` are the times that `timesForComparison` points
to under the keys `"cluster"` and `"singleNode"`. -/
structure LoopState where
  clusterRebalanceCount : Int
  nodeRebalanceCount : GoMap
  clusterStart : Time
  nodeStart : Time

/-- The state at the first iteration (`main.go:46-51`). -/
def initialState : LoopState := ⟨0, GoMap.empty, zeroTime, zeroTime⟩

/-- What the world supplies to one iteration: the clock reading of each
`time.Now()` call and the answer to each request. -/
structure Env where
  /-- clock inside `time.Since`, `funcs.go:193` -/
  clusterSince : Time
  /-- clock at `funcs.go:197` -/
  clusterReset : Time
  /-- clock inside `time.Since`, `funcs.go:220` -/
  nodeSince : Time
  /-- clock at `funcs.go:224` -/
  nodeReset : Time
  /-- clock at `main.go:97` when `range` visits the key `"cluster"` -/
  armCluster : Time
  /-- clock at `main.go:97` when `range` visits the key `"singleNode"` -/
  armNode : Time
  /-- answer to `GET /pools/default` -/
  pools : HttpResult
  /-- outcome of `json.Unmarshal` on that answer -/
  unmarshal : Except GoError nodesResponse
  /-- answer to `POST /controller/setRecoveryType` -/
  recovery : HttpResult
  /-- answer to `POST /controller/rebalance` -/
  rebalance : HttpResult

/-- Outcome of one iteration: the loop variables, the side effects in order,
and whether `log.Fatal` ended the process. -/
structure IterResult where
  state : LoopState
  trace : List Event
  exited : Bool

/-- The call of `handleClusterRebalanceBackoff` at `main.go:56-59`. -/
def clusterCheck (env : Env) (s : LoopState) : LoopState × List Event :=
  let (r, ev) := handleClusterRebalanceBackoff env.clusterSince env.clusterReset
    s.clusterStart s.clusterRebalanceCount
  ({ s with clusterStart := r.1, clusterRebalanceCount := r.2 }, ev)

/-- The call of `handleNodeRebalanceBackoff` at `main.go:61-64`. -/
def nodeCheck (env : Env) (s : LoopState) : LoopState × List Event :=
  let (r, ev) := handleNodeRebalanceBackoff env.nodeSince env.nodeReset
    s.nodeStart s.nodeRebalanceCount
  ({ s with nodeStart := r.1, nodeRebalanceCount := r.2 }, ev)

/-- The two tracker checks that open an iteration (`main.go:56-64`). -/
def trackerChecks (env : Env) (s : LoopState) : LoopState × List Event :=
  let (s1, ev1) := clusterCheck env s
  let (s2, ev2) := nodeCheck env s1
  (s2, ev1 ++ ev2)

/-- The counter increments and the arming of the timers (`main.go:90-99`). -/
def countAndArm (env : Env) (hostname : String) (s : LoopState) : LoopState :=
  { clusterRebalanceCount := s.clusterRebalanceCount + 1
    nodeRebalanceCount := s.nodeRebalanceCount.set hostname (s.nodeRebalanceCount.get hostname + 1)
    clusterStart := if isZero s.clusterStart then env.armCluster else s.clusterStart
    nodeStart := if isZero s.nodeStart then env.armNode else s.nodeStart }

/-- Lines `main.go:71-102`: what an iteration does with the snapshot; a
`continue` ends the iteration without the sleep of line 102. -/
def actOnSnapshot (isDryRun : Bool) (env : Env) (cbNodesState : nodesResponse)
    (s : LoopState) : LoopState × List Event :=
  let (failedNode, ev1) := getFailedNode cbNodesState
  if failedNode.Hostname ≠ "" then
    if failedNode.Status ≠ "healthy" then
      (s, ev1 ++ [Event.log "%s isn't healthy, trying again later."
        [LogArg.str failedNode.Hostname]])
    else
      let (r, ev2) := recoverNode failedNode isDryRun env.recovery
      match r.2 with
      | some _ =>
        (s, ev1 ++ ev2 ++
          [Event.log "Unable to recover node back into cluster. Skipping rebalance." []])
      | none =>
        let (rb, ev3) := rebalanceCluster (getAllNodes cbNodesState) isDryRun env.rebalance
        let ev4 := match rb.2 with
          | some e => [Event.log "Failed to rebalance cluster." [LogArg.err e]]
          | none => []
        (countAndArm env failedNode.Hostname s,
          ev1 ++ ev2 ++ ev3 ++ ev4 ++ [Event.sleep (1 * minute)])
  else (s, ev1 ++ [Event.sleep (1 * minute)])

/-- One iteration of the loop of `main` (`main.go:53-103`). -/
def mainLoopIteration (isDryRun : Bool) (env : Env) (s : LoopState) : IterResult :=
  let (s1, ev1) := trackerChecks env s
  match getNodesState env.pools env.unmarshal with
  | (none, ev2) => ⟨s1, ev1 ++ ev2, true⟩
  | (some (Except.error e), ev2) => ⟨s1, ev1 ++ ev2 ++ [Event.fatal e], true⟩
  | (some (Except.ok cbNodesState), ev2) =>
    let (s2, ev3) := actOnSnapshot isDryRun env cbNodesState s1
    ⟨s2, ev1 ++ ev2 ++ ev3, false⟩

/-! ## Vocabulary of the specification -/

/-- The members of a snapshot whose membership state is not `"active"`. -/
def failedMembers (resp : nodesResponse) : List nodeMap :=
  resp.Nodes.filter (fun node => decide (node.ClusterMembership ≠ "active"))

/-- The recovery request for a node (`funcs.go:81-87`). -/
def recoveryRequest (node : nodeMap) : Event :=
  Event.request "/controller/setRecoveryType"
    (some [("otpNode", node.OtpNode), ("recoveryType", "full")])

/-- The rebalance request that lists the given node IDs (`funcs.go:115-120`). -/
def rebalanceRequest (nodeIDs : List String) : Event :=
  Event.request "/controller/rebalance" (some [("knownNodes", String.intercalate "," nodeIDs)])

/-- The requests among the events, in order. -/
def requestsOf (tr : List Event) : List Event :=
  tr.filter (fun e => match e with
    | Event.request _ _ => true
    | _ => false)

/-- The durations slept, in order. -/
def sleepsOf (tr : List Event) : List Duration :=
  tr.filterMap (fun e => match e with
    | Event.sleep d => some d
    | _ => none)

/-- The answer of the collaborator counts as success: no transport error and
status 200. -/
def HttpResult.succeeds (r : HttpResult) : Prop := r.err = none ∧ r.statusCode = statusOK

instance (r : HttpResult) : Decidable r.succeeds := by
  unfold HttpResult.succeeds; infer_instance

/-- Control reaches the call of `rebalanceCluster` on `main.go:85`: a failed
node was detected (line 73), it is healthy (line 74) and `recoverNode`
returned no error (line 80). -/
def reachesRebalance (isDryRun : Bool) (env : Env) (resp : nodesResponse) : Prop :=
  (getFailedNode resp).1.Hostname ≠ "" ∧ (getFailedNode resp).1.Status = "healthy" ∧
    (recoverNode (getFailedNode resp).1 isDryRun env.recovery).1.2 = none

/-- The log line of `rebalanceCluster` that prints its argument
(`funcs.go:113`). -/
def rebalanceListLog (nodeNames : List String) : Event :=
  Event.log "List of nodes we are passing for rebalance: \n%v\n\n" [LogArg.strs nodeNames]

/-- The events that the tracker checks can produce: their four log lines and
the penalty sleep. -/
def isTrackerEvent : Event → Bool
  | Event.log format _ =>
    format = "%s has been rebalanced more than %d times.\n" ||
    format = "Resetting timer for cluster rebalance count as we have passed the 2 hour mark." ||
    format = "Too many CLUSTER rebalance attempts, backing off for 4 hours." ||
    format = "Clearing node to rebalance count map and resetting timer." ||
    format = "Too many SINGLE NODE rebalance attempts. Backing off for 4 hours."
  | Event.sleep d => d = 4 * hour
  | Event.request _ _ => false
  | Event.fatal _ => false

/-! ## Concrete inputs -/

/-- An active, healthy member. -/
def exampleNode1 : nodeMap := ⟨"active", "none", "healthy", "cb1:8091", "ns_1@cb1", ["kv"]⟩

/-- A failed-over, healthy member. -/
def exampleNode2 : nodeMap :=
  ⟨"inactiveFailedOver", "none", "healthy", "cb2:8091", "ns_1@cb2", ["kv"]⟩

/-- An active, healthy member. -/
def exampleNode3 : nodeMap := ⟨"active", "none", "healthy", "cb3:8091", "ns_1@cb3", ["kv"]⟩

/-- A failed-over member that is not healthy. -/
def exampleNode2Unhealthy : nodeMap :=
  ⟨"inactiveFailedOver", "none", "unhealthy", "cb2:8091", "ns_1@cb2", ["kv"]⟩

/-- Three members, the second failed over and healthy. -/
def exampleSnapshot : nodesResponse := ⟨"default", [exampleNode1, exampleNode2, exampleNode3]⟩

/-- Three members, the second failed over and not healthy. -/
def exampleSnapshotUnhealthy : nodesResponse :=
  ⟨"default", [exampleNode1, exampleNode2Unhealthy, exampleNode3]⟩

/-- An answer with status 200. -/
def okAnswer : HttpResult := ⟨some "", 200, none⟩

/-- An answer with status 500. -/
def errorAnswer : HttpResult := ⟨some "internal error", 500, none⟩

/-- A world in which every request is answered with status 200. -/
def exampleEnv : Env :=
  ⟨1000, 1001, 1002, 1003, 1004, 1005, okAnswer, Except.ok exampleSnapshot, okAnswer, okAnswer⟩

/-- The same world with the unhealthy snapshot. -/
def exampleEnvUnhealthy : Env := { exampleEnv with unmarshal := Except.ok exampleSnapshotUnhealthy }

/-- The same world with the recovery request answered by status 500. -/
def exampleEnvRecoveryFails : Env := { exampleEnv with recovery := errorAnswer }

/-- A cluster tracker at its limit inside its window, a node tracker with one
hostname at its limit and another below it. -/
def exampleBusyState : LoopState :=
  ⟨3, ⟨[("cb1:8091", 1), ("cb2:8091", 2)], by decide⟩, 500, 600⟩

/-- The loop of `main` (`main.go:53-103`) run for as many iterations as there
are worlds in the list, or until `log.Fatal` ends the process: the final loop
variables and all side effects in order. -/
def runLoop (isDryRun : Bool) : List Env → LoopState → LoopState × List Event
  | [], s => (s, [])
  | env :: rest, s =>
    let r := mainLoopIteration isDryRun env s
    if r.exited then (r.state, r.trace)
    else
      let next := runLoop isDryRun rest r.state
      (next.1, r.trace ++ next.2)

/-- A count map in which two hostnames are at the node limit. -/
def twoOffenders : GoMap := ⟨[("cb1:8091", 2), ("cb2:8091", 2)], by decide⟩

/-- The same two hostnames at the node limit, visited by `range` in the other
order. -/
def twoOffendersReversed : GoMap := ⟨[("cb2:8091", 2), ("cb1:8091", 2)], by decide⟩

/-- A single non-active member, healthy, whose hostname is the empty string. -/
def exampleNodeNoHostname : nodeMap :=
  ⟨"inactiveFailedOver", "none", "healthy", "", "ns_1@cb2", ["kv"]⟩

/-- Three members, the second failed over with an empty hostname. -/
def exampleSnapshotNoHostname : nodesResponse :=
  ⟨"default", [exampleNode1, exampleNodeNoHostname, exampleNode3]⟩

/-- The example world with that snapshot. -/
def exampleEnvNoHostname : Env :=
  { exampleEnv with unmarshal := Except.ok exampleSnapshotNoHostname }

/-- What holds of the loop variables at the start of an iteration. -/
def startInvariant (s : LoopState) : Prop :=
  s.clusterRebalanceCount ≤ 3 ∧
  (∀ h : String, s.nodeRebalanceCount.get h ≤ 2) ∧
  (∀ h1 h2 : String, s.nodeRebalanceCount.get h1 ≥ 2 → s.nodeRebalanceCount.get h2 ≥ 2 →
    h1 = h2) ∧
  (s.clusterRebalanceCount ≥ 3 → s.clusterStart ≠ 0) ∧
  ((∃ h : String, s.nodeRebalanceCount.get h ≥ 2) → s.nodeStart ≠ 0) ∧
  (s.clusterStart = 0 → s.clusterRebalanceCount = 0)

/-- What holds of the loop variables after the two tracker checks. -/
def afterChecksInvariant (s : LoopState) : Prop :=
  s.clusterRebalanceCount ≤ 2 ∧
  (∀ h : String, s.nodeRebalanceCount.get h ≤ 1) ∧
  (s.clusterStart = 0 → s.clusterRebalanceCount = 0)

/-- The first member, failed over and healthy. -/
def exampleNode1Failed : nodeMap :=
  ⟨"inactiveFailedOver", "none", "healthy", "cb1:8091", "ns_1@cb1", ["kv"]⟩

/-- The second member, active. -/
def exampleNode2Active : nodeMap := ⟨"active", "none", "healthy", "cb2:8091", "ns_1@cb2", ["kv"]⟩

/-- Three members, the first failed over and healthy. -/
def exampleSnapshotFirstFailed : nodesResponse :=
  ⟨"default", [exampleNode1Failed, exampleNode2Active, exampleNode3]⟩

/-- A world that answers every request with status 200, whose clock reads
`tCheck` during the tracker checks and `tArm` when the timers are armed. -/
def worldAt (tCheck tArm : Time) (snapshot : nodesResponse) : Env :=
  ⟨tCheck, tCheck, tCheck, tCheck, tArm, tArm, okAnswer, Except.ok snapshot, okAnswer, okAnswer⟩

/-- Six iterations, one minute of poll sleep apart, with a four-hour penalty
sleep inside the third and the sixth: `cb1` fails in iterations 1, 2, 4 and 5,
`cb2` fails in iterations 3 and 6. -/
def staleCountRun : List Env :=
  [worldAt 1000 1000 exampleSnapshotFirstFailed,
   worldAt (1000 + 1 * minute) (1000 + 1 * minute) exampleSnapshotFirstFailed,
   worldAt (1000 + 2 * minute) (1000 + 2 * minute + 4 * hour) exampleSnapshot,
   worldAt (1000 + 3 * minute + 4 * hour) (1000 + 3 * minute + 4 * hour)
     exampleSnapshotFirstFailed,
   worldAt (1000 + 4 * minute + 4 * hour) (1000 + 4 * minute + 4 * hour)
     exampleSnapshotFirstFailed,
   worldAt (1000 + 5 * minute + 4 * hour) (1000 + 5 * minute + 8 * hour) exampleSnapshot]

/-- The world of the seventh iteration, one minute after the sixth. -/
def staleCountSeventh : Env :=
  worldAt (1000 + 6 * minute + 8 * hour) (1000 + 6 * minute + 12 * hour) exampleSnapshot

/-- The first events of the orchestration of `main.go:73-100`: the log line
of the health gate (`main.go:75`) and the log lines with which `recoverNode`
starts (`funcs.go:86`, `funcs.go:98`). -/
def isOrchestratorEvent : Event → Bool
  | Event.log format _ =>
    format = "%s isn't healthy, trying again later." ||
    format = "recovering node %s.\n" ||
    format = "Would have recovered node: %s.\n"
  | _ => false

/-- The iteration entered the orchestration: its trace holds one of the
events with which the orchestration starts. -/
def runsOrchestrator (tr : List Event) : Bool := tr.any isOrchestratorEvent

/-- Three members, the first and the second failed over and healthy. -/
def exampleSnapshotTwoFailed : nodesResponse :=
  ⟨"default", [exampleNode1Failed, exampleNode2, exampleNode3]⟩

/-- The example world with two failed members. -/
def exampleEnvTwoFailed : Env := { exampleEnv with unmarshal := Except.ok exampleSnapshotTwoFailed }

/-! ## Failure detector: proofs -/

/-- The loop of `getFailedNode` counts the non-active nodes and keeps the last
of them. -/
theorem getFailedNode_loop (l : List nodeMap) (c : Int) (f : nodeMap) :
    l.foldl (fun (acc : Int × nodeMap) node =>
        if node.ClusterMembership ≠ "active" then (acc.1 + 1, node) else acc) (c, f)
      = (c + ((l.filter (fun node => decide (node.ClusterMembership ≠ "active"))).length : Int),
         ((l.filter (fun node => decide (node.ClusterMembership ≠ "active"))).getLast?).getD f) := by
  induction l generalizing c f with
  | nil => simp
  | cons x xs ih =>
    by_cases h : x.ClusterMembership = "active"
    · rw [List.foldl_cons, List.filter_cons_of_neg (by simp [h])]
      have e : (if x.ClusterMembership ≠ "active" then ((c, f).1 + 1, x) else (c, f)) = (c, f) := by
        simp [h]
      rw [e]
      exact ih c f
    · rw [List.foldl_cons, List.filter_cons_of_pos (by simp [h])]
      have e : (if x.ClusterMembership ≠ "active" then ((c, f).1 + 1, x) else (c, f))
          = (c + 1, x) := by
        simp [h]
      rw [e, ih (c + 1) x, List.length_cons, List.getLast?_cons]
      congr 1
      push_cast
      ring

theorem getFailedNode_node (resp : nodesResponse) :
    (getFailedNode resp).1 =
      match failedMembers resp with
      | [n] => n
      | _ => nodeMap.zero := by
  unfold getFailedNode failedMembers
  rw [getFailedNode_loop]
  generalize resp.Nodes.filter (fun node => decide (node.ClusterMembership ≠ "active")) = fl
  match fl with
  | [] => simp
  | [n] => simp
  | a :: b :: rest =>
    have : (0 : Int) + ((a :: b :: rest).length : Int) > 1 := by
      simp only [List.length_cons]; push_cast; omega
    simp only [this, if_true]

theorem getFailedNode_of_single (resp : nodesResponse) (n : nodeMap)
    (h : failedMembers resp = [n]) : (getFailedNode resp) = (n, []) := by
  have h1 := getFailedNode_node resp
  rw [h] at h1
  have h2 : (getFailedNode resp).2 = [] := by
    unfold getFailedNode
    rw [getFailedNode_loop]
    unfold failedMembers at h
    rw [h]
    simp
  exact Prod.ext h1 h2

/-- The loop of `getAllNodes` fills the slice from the left. -/
theorem getAllNodes_loop (l : List nodeMap) (pre : List String) :
    (l.enumFrom pre.length).foldl
        (fun (otpNodes : List String) (p : Nat × nodeMap) => otpNodes.set p.1 p.2.OtpNode)
        (pre ++ List.replicate l.length "")
      = pre ++ l.map (fun node => node.OtpNode) := by
  induction l generalizing pre with
  | nil => simp
  | cons x xs ih =>
    have h := ih (pre ++ [x.OtpNode])
    simp only [List.length_append, List.length_singleton, List.append_assoc,
      List.singleton_append] at h
    simp only [List.enumFrom_cons, List.foldl_cons, List.length_cons, List.replicate_succ,
      List.map_cons]
    rw [List.set_append_right _ _ (le_refl _)]
    simpa using h

theorem getAllNodes_eq_map (resp : nodesResponse) :
    getAllNodes resp = resp.Nodes.map (fun node => node.OtpNode) := by
  have h := getAllNodes_loop resp.Nodes []
  simpa [getAllNodes, List.enum] using h

/-- Claim C1. For every snapshot, `getFailedNode` returns the one node whose
`ClusterMembership` is not `"active"` when there is exactly one such node, and
the empty `nodeMap` when there is none or there are two or more. -/
theorem getFailedNode_single_or_zero (resp : nodesResponse) :
    (getFailedNode resp).1 =
      match resp.Nodes.filter (fun node => decide (node.ClusterMembership ≠ "active")) with
      | [n] => n
      | _ => nodeMap.zero :=
  getFailedNode_node resp

/-! ## Control loop: shape of an iteration -/

theorem handleCluster_inert (a b st : Time) (c : Int) (h : st = 0) :
    handleClusterRebalanceBackoff a b st c = ((st, c), []) := by
  simp [handleClusterRebalanceBackoff, isZero, h]

theorem handleCluster_roll (a b st : Time) (c : Int) (h : st ≠ 0)
    (ht : timeSince a st ≥ 2 * hour) :
    handleClusterRebalanceBackoff a b st c = ((b, 0), [Event.log
      "Resetting timer for cluster rebalance count as we have passed the 2 hour mark." []]) := by
  simp only [handleClusterRebalanceBackoff, isZero, beq_iff_eq, h, if_false, ht, if_true]

theorem handleCluster_penalty (a b st : Time) (c : Int) (h : st ≠ 0)
    (ht : ¬ timeSince a st ≥ 2 * hour) (hc : c ≥ 3) :
    handleClusterRebalanceBackoff a b st c = ((zeroTime, 0),
      [Event.log "Too many CLUSTER rebalance attempts, backing off for 4 hours." [],
       Event.sleep (4 * hour)]) := by
  simp only [handleClusterRebalanceBackoff, isZero, beq_iff_eq, h, if_false, ht, hc, if_true]

theorem handleCluster_keep (a b st : Time) (c : Int) (h : st ≠ 0)
    (ht : ¬ timeSince a st ≥ 2 * hour) (hc : ¬ c ≥ 3) :
    handleClusterRebalanceBackoff a b st c = ((st, c), []) := by
  simp only [handleClusterRebalanceBackoff, isZero, beq_iff_eq, h, if_false, ht, hc]

theorem handleNode_inert (a b st : Time) (m : GoMap) (h : st = 0) :
    handleNodeRebalanceBackoff a b st m = ((st, m), []) := by
  simp [handleNodeRebalanceBackoff, isZero, h]

theorem handleNode_roll (a b st : Time) (m : GoMap) (h : st ≠ 0)
    (ht : timeSince a st ≥ 2 * hour) :
    handleNodeRebalanceBackoff a b st m = ((b, GoMap.empty),
      (checkForMultipleRebalances m 2).2 ++
        [Event.log "Clearing node to rebalance count map and resetting timer." []]) := by
  simp only [handleNodeRebalanceBackoff, isZero, beq_iff_eq, h, if_false, ht, if_true]

theorem handleNode_penalty (a b st : Time) (m : GoMap) (h : st ≠ 0)
    (ht : ¬ timeSince a st ≥ 2 * hour) (hc : (checkForMultipleRebalances m 2).1.1 = true) :
    handleNodeRebalanceBackoff a b st m =
      ((zeroTime, m.set (checkForMultipleRebalances m 2).1.2 0),
        (checkForMultipleRebalances m 2).2 ++
          [Event.log "Too many SINGLE NODE rebalance attempts. Backing off for 4 hours." [],
            Event.sleep (4 * hour)]) := by
  simp only [handleNodeRebalanceBackoff, isZero, beq_iff_eq, h, if_false, ht, hc, if_true]

theorem handleNode_keep (a b st : Time) (m : GoMap) (h : st ≠ 0)
    (ht : ¬ timeSince a st ≥ 2 * hour) (hc : ¬ (checkForMultipleRebalances m 2).1.1 = true) :
    handleNodeRebalanceBackoff a b st m = ((st, m), (checkForMultipleRebalances m 2).2) := by
  simp only [handleNodeRebalanceBackoff, isZero, beq_iff_eq, h, if_false, ht, hc]
  simp

theorem handleCluster_events (a b st : Time) (c : Int) :
    ∀ e ∈ (handleClusterRebalanceBackoff a b st c).2, isTrackerEvent e = true := by
  intro e he
  by_cases h : st = 0
  · rw [handleCluster_inert a b st c h] at he; simp at he
  · by_cases ht : timeSince a st ≥ 2 * hour
    · rw [handleCluster_roll a b st c h ht] at he
      simp only [List.mem_singleton] at he
      subst he; decide
    · by_cases hc : c ≥ 3
      · rw [handleCluster_penalty a b st c h ht hc] at he
        simp only [List.mem_cons, List.mem_singleton, List.not_mem_nil, or_false] at he
        rcases he with he | he <;> subst he <;> simp [isTrackerEvent]
      · rw [handleCluster_keep a b st c h ht hc] at he; simp at he

theorem checkForMultipleRebalances_events (m : GoMap) (v : Int) :
    ∀ e ∈ (checkForMultipleRebalances m v).2, isTrackerEvent e = true := by
  intro e he
  unfold checkForMultipleRebalances at he
  split at he <;> simp at he
  subst he; simp [isTrackerEvent]

theorem handleNode_events (a b st : Time) (m : GoMap) :
    ∀ e ∈ (handleNodeRebalanceBackoff a b st m).2, isTrackerEvent e = true := by
  intro e he
  have hck := checkForMultipleRebalances_events m 2
  by_cases h : st = 0
  · rw [handleNode_inert a b st m h] at he; simp at he
  · by_cases ht : timeSince a st ≥ 2 * hour
    · rw [handleNode_roll a b st m h ht] at he
      simp only [List.mem_append, List.mem_singleton] at he
      rcases he with he | he
      · exact hck e he
      · subst he; decide
    · by_cases hc : (checkForMultipleRebalances m 2).1.1 = true
      · rw [handleNode_penalty a b st m h ht hc] at he
        simp only [List.mem_append, List.mem_cons, List.mem_singleton, List.not_mem_nil,
          or_false] at he
        rcases he with he | he | he
        · exact hck e he
        · subst he; decide
        · subst he; simp [isTrackerEvent]
      · rw [handleNode_keep a b st m h ht hc] at he
        exact hck e he

theorem trackerChecks_events (env : Env) (s : LoopState) :
    ∀ e ∈ (trackerChecks env s).2, isTrackerEvent e = true := by
  intro e he
  simp only [trackerChecks, clusterCheck, nodeCheck, List.mem_append] at he
  rcases he with he | he
  · exact handleCluster_events _ _ _ _ e he
  · exact handleNode_events _ _ _ _ e he

theorem requestsOf_append (a b : List Event) :
    requestsOf (a ++ b) = requestsOf a ++ requestsOf b := by
  simp [requestsOf]

theorem requestsOf_trackerChecks (env : Env) (s : LoopState) :
    requestsOf (trackerChecks env s).2 = [] := by
  unfold requestsOf
  rw [List.filter_eq_nil_iff]
  intro e he
  have h := trackerChecks_events env s e he
  cases e <;> simp_all [isTrackerEvent]

/-- An iteration whose snapshot fetch succeeds: the tracker checks, the GET,
then the work on the snapshot. -/
theorem mainLoopIteration_of_snapshot (isDryRun : Bool) (env : Env) (s : LoopState)
    (resp : nodesResponse) (hp : env.pools.err = none) (hu : env.unmarshal = Except.ok resp) :
    mainLoopIteration isDryRun env s =
      ⟨(actOnSnapshot isDryRun env resp (trackerChecks env s).1).1,
        (trackerChecks env s).2 ++ [Event.request "/pools/default" none] ++
          (actOnSnapshot isDryRun env resp (trackerChecks env s).1).2, false⟩ := by
  simp [mainLoopIteration, getNodesState, doCbRequest, hp, hu]

theorem recoverNode_dry (node : nodeMap) (resp : HttpResult) :
    recoverNode node true resp =
      ((none, none), [Event.log "Would have recovered node: %s.\n" [LogArg.str node.Hostname]]) := by
  simp [recoverNode]

theorem recoverNode_live_events (node : nodeMap) (resp : HttpResult) :
    (recoverNode node false resp).2 =
      [Event.log "recovering node %s.\n" [LogArg.str node.Hostname], recoveryRequest node] := by
  simp only [recoverNode, doCbRequest, recoveryRequest]
  cases resp.err <;> simp
  split <;> rfl

theorem recoverNode_live_error (node : nodeMap) (resp : HttpResult) :
    (recoverNode node false resp).1.2 = none ↔ resp.succeeds := by
  simp only [recoverNode, doCbRequest, HttpResult.succeeds]
  cases h : resp.err <;> simp
  split <;> simp_all

theorem rebalanceCluster_dry (l : List String) (resp : HttpResult) (hl : l ≠ []) :
    rebalanceCluster l true resp =
      ((none, none), [rebalanceListLog l, Event.log "Would have rebalanced the cluster.\n" []]) := by
  have : ¬ l.length = 0 := fun h => hl (List.length_eq_zero.mp h)
  simp [rebalanceCluster, this, rebalanceListLog]

theorem rebalanceCluster_live_events (l : List String) (resp : HttpResult) (hl : l ≠ []) :
    (rebalanceCluster l false resp).2 = [rebalanceListLog l, rebalanceRequest l] := by
  have : ¬ l.length = 0 := fun h => hl (List.length_eq_zero.mp h)
  simp only [rebalanceCluster, this, if_false, doCbRequest, rebalanceListLog, rebalanceRequest]
  cases resp.err <;> simp
  split <;> rfl

theorem actOnSnapshot_noNode (isDryRun : Bool) (env : Env) (resp : nodesResponse)
    (s : LoopState) (h : (getFailedNode resp).1.Hostname = "") :
    actOnSnapshot isDryRun env resp s =
      (s, (getFailedNode resp).2 ++ [Event.sleep (1 * minute)]) := by
  simp [actOnSnapshot, h]

theorem actOnSnapshot_unhealthy (isDryRun : Bool) (env : Env) (resp : nodesResponse)
    (s : LoopState) (h : (getFailedNode resp).1.Hostname ≠ "")
    (hs : (getFailedNode resp).1.Status ≠ "healthy") :
    actOnSnapshot isDryRun env resp s =
      (s, (getFailedNode resp).2 ++ [Event.log "%s isn't healthy, trying again later."
        [LogArg.str (getFailedNode resp).1.Hostname]]) := by
  simp [actOnSnapshot, h, hs]

theorem actOnSnapshot_recoverFails (isDryRun : Bool) (env : Env) (resp : nodesResponse)
    (s : LoopState) (h : (getFailedNode resp).1.Hostname ≠ "")
    (hs : (getFailedNode resp).1.Status = "healthy")
    (hr : (recoverNode (getFailedNode resp).1 isDryRun env.recovery).1.2 ≠ none) :
    actOnSnapshot isDryRun env resp s =
      (s, (getFailedNode resp).2 ++ (recoverNode (getFailedNode resp).1 isDryRun env.recovery).2
        ++ [Event.log "Unable to recover node back into cluster. Skipping rebalance." []]) := by
  simp only [actOnSnapshot, h, hs, ne_eq, not_false_eq_true, if_true, not_true_eq_false, if_false]
  split
  · rfl
  · rename_i heq; exact absurd heq hr

theorem actOnSnapshot_completes (isDryRun : Bool) (env : Env) (resp : nodesResponse)
    (s : LoopState) (h : (getFailedNode resp).1.Hostname ≠ "")
    (hs : (getFailedNode resp).1.Status = "healthy")
    (hr : (recoverNode (getFailedNode resp).1 isDryRun env.recovery).1.2 = none) :
    actOnSnapshot isDryRun env resp s =
      (countAndArm env (getFailedNode resp).1.Hostname s,
        (getFailedNode resp).2 ++ (recoverNode (getFailedNode resp).1 isDryRun env.recovery).2
        ++ (rebalanceCluster (getAllNodes resp) isDryRun env.rebalance).2
        ++ (match (rebalanceCluster (getAllNodes resp) isDryRun env.rebalance).1.2 with
            | some e => [Event.log "Failed to rebalance cluster." [LogArg.err e]]
            | none => [])
        ++ [Event.sleep (1 * minute)]) := by
  simp only [actOnSnapshot, h, hs, ne_eq, not_false_eq_true, if_true, not_true_eq_false, if_false]
  split
  · rename_i e heq; rw [hr] at heq; cases heq
  · rfl

/-! ## Requests of an iteration -/

theorem requestsOf_getFailedNode (resp : nodesResponse) :
    requestsOf (getFailedNode resp).2 = [] := by
  unfold getFailedNode
  dsimp only
  split_ifs <;> rfl

theorem mem_requestsOf (e : Event) (tr : List Event) :
    e ∈ requestsOf tr ↔ e ∈ tr ∧ ∃ apiPath form, e = Event.request apiPath form := by
  unfold requestsOf
  rw [List.mem_filter]
  cases e <;> simp

theorem requestsOf_iteration (isDryRun : Bool) (env : Env) (s : LoopState)
    (resp : nodesResponse) (hp : env.pools.err = none) (hu : env.unmarshal = Except.ok resp) :
    requestsOf (mainLoopIteration isDryRun env s).trace =
      Event.request "/pools/default" none ::
        requestsOf (actOnSnapshot isDryRun env resp (trackerChecks env s).1).2 := by
  rw [mainLoopIteration_of_snapshot isDryRun env s resp hp hu]
  simp only [requestsOf_append, requestsOf_trackerChecks, List.nil_append]
  rfl

/-- A node that passes the guard of `main.go:73` is the only non-active node of
the snapshot. -/
theorem failedMembers_of_detected (resp : nodesResponse)
    (h : (getFailedNode resp).1.Hostname ≠ "") :
    failedMembers resp = [(getFailedNode resp).1] := by
  have h1 := getFailedNode_node resp
  match hf : failedMembers resp with
  | [] => rw [hf] at h1; rw [h1] at h; exact absurd rfl h
  | [n] => rw [hf] at h1; rw [h1]
  | a :: b :: rest => rw [hf] at h1; rw [h1] at h; exact absurd rfl h

theorem getAllNodes_ne_nil_of_detected (resp : nodesResponse)
    (h : (getFailedNode resp).1.Hostname ≠ "") : getAllNodes resp ≠ [] := by
  have hf := failedMembers_of_detected resp h
  rw [getAllNodes_eq_map]
  intro hnil
  have : resp.Nodes = [] := List.map_eq_nil_iff.mp hnil
  simp [failedMembers, this] at hf

theorem requestsOf_rebalanceCluster (l : List String) (isDryRun : Bool) (resp : HttpResult) :
    requestsOf (rebalanceCluster l isDryRun resp).2 =
      if l = [] ∨ isDryRun = true then [] else [rebalanceRequest l] := by
  by_cases hl : l = []
  · subst hl; simp [rebalanceCluster, requestsOf]
  · cases isDryRun
    · rw [rebalanceCluster_live_events l resp hl]
      simp [hl, requestsOf, rebalanceListLog, rebalanceRequest]
    · rw [rebalanceCluster_dry l resp hl]
      simp [requestsOf, rebalanceListLog]

theorem requestsOf_recoverNode (node : nodeMap) (isDryRun : Bool) (resp : HttpResult) :
    requestsOf (recoverNode node isDryRun resp).2 =
      if isDryRun = true then [] else [recoveryRequest node] := by
  cases isDryRun
  · rw [recoverNode_live_events]; simp [requestsOf, recoveryRequest]
  · rw [recoverNode_dry]; simp [requestsOf]

/-- The requests that the work on a snapshot issues, by the path taken. -/
theorem requestsOf_actOnSnapshot (isDryRun : Bool) (env : Env) (resp : nodesResponse)
    (s : LoopState) :
    requestsOf (actOnSnapshot isDryRun env resp s).2 =
      if (getFailedNode resp).1.Hostname = "" ∨ (getFailedNode resp).1.Status ≠ "healthy"
          ∨ isDryRun = true then []
      else if (recoverNode (getFailedNode resp).1 isDryRun env.recovery).1.2 = none then
        [recoveryRequest (getFailedNode resp).1, rebalanceRequest (getAllNodes resp)]
      else [recoveryRequest (getFailedNode resp).1] := by
  by_cases h : (getFailedNode resp).1.Hostname = ""
  · rw [actOnSnapshot_noNode isDryRun env resp s h]
    simp only [requestsOf_append, requestsOf_getFailedNode, h]
    simp [requestsOf]
  · by_cases hs : (getFailedNode resp).1.Status = "healthy"
    · by_cases hr : (recoverNode (getFailedNode resp).1 isDryRun env.recovery).1.2 = none
      · rw [actOnSnapshot_completes isDryRun env resp s h hs hr]
        have hne := getAllNodes_ne_nil_of_detected resp h
        have hlog : requestsOf (match (rebalanceCluster (getAllNodes resp) isDryRun
            env.rebalance).1.2 with
            | some e => [Event.log "Failed to rebalance cluster." [LogArg.err e]]
            | none => []) = [] := by
          split <;> rfl
        simp only [requestsOf_append, requestsOf_getFailedNode, requestsOf_recoverNode,
          requestsOf_rebalanceCluster, hlog, h, hs, hr, hne]
        cases isDryRun <;> simp [requestsOf]
      · rw [actOnSnapshot_recoverFails isDryRun env resp s h hs hr]
        simp only [requestsOf_append, requestsOf_getFailedNode, requestsOf_recoverNode, h, hs, hr]
        cases isDryRun <;> simp [requestsOf]
    · rw [actOnSnapshot_unhealthy isDryRun env resp s h hs]
      simp only [requestsOf_append, requestsOf_getFailedNode, h, hs]
      simp [requestsOf, hs]

/-! ## Claims about the orchestration -/

theorem mem_trace_of_mem_act (isDryRun : Bool) (env : Env) (s : LoopState)
    (resp : nodesResponse) (hp : env.pools.err = none) (hu : env.unmarshal = Except.ok resp)
    (e : Event) (he : e ∈ (actOnSnapshot isDryRun env resp (trackerChecks env s).1).2) :
    e ∈ (mainLoopIteration isDryRun env s).trace := by
  rw [mainLoopIteration_of_snapshot isDryRun env s resp hp hu]
  exact List.mem_append_right _ he

/-- Claim C2. `getAllNodes` returns one entry per node of the snapshot, the
i-th being the i-th node's `OtpNode`. In an iteration on that snapshot every
rebalance request carries, as `knownNodes`, the IDs of all members joined with
commas; and when control reaches the call of `rebalanceCluster`, the list it is
given (which it logs) is non-empty and holds the ID of every member. -/
theorem rebalance_lists_every_member (resp : nodesResponse) :
    (getAllNodes resp).length = resp.Nodes.length ∧
    (∀ i : Nat, (getAllNodes resp)[i]? = (resp.Nodes[i]?).map (fun node => node.OtpNode)) ∧
    ∀ (isDryRun : Bool) (env : Env) (s : LoopState),
      env.pools.err = none → env.unmarshal = Except.ok resp →
      (∀ form, Event.request "/controller/rebalance" form
            ∈ (mainLoopIteration isDryRun env s).trace →
          form = some [("knownNodes",
            String.intercalate "," (resp.Nodes.map (fun node => node.OtpNode)))]) ∧
      (reachesRebalance isDryRun env resp →
        getAllNodes resp ≠ [] ∧
        (∀ node ∈ resp.Nodes, node.OtpNode ∈ getAllNodes resp) ∧
        rebalanceListLog (getAllNodes resp) ∈ (mainLoopIteration isDryRun env s).trace ∧
        (isDryRun = false →
          rebalanceRequest (getAllNodes resp) ∈ (mainLoopIteration isDryRun env s).trace)) := by
  refine ⟨by simp [getAllNodes_eq_map], fun i => by simp [getAllNodes_eq_map], ?_⟩
  intro isDryRun env s hp hu
  constructor
  · intro form hmem
    have hreq : Event.request "/controller/rebalance" form
        ∈ requestsOf (mainLoopIteration isDryRun env s).trace :=
      (mem_requestsOf _ _).mpr ⟨hmem, _, _, rfl⟩
    rw [requestsOf_iteration isDryRun env s resp hp hu, requestsOf_actOnSnapshot] at hreq
    rw [← getAllNodes_eq_map]
    simp only [List.mem_cons, Event.request.injEq] at hreq
    rcases hreq with ⟨h1, _⟩ | hreq
    · exact absurd h1 (by decide)
    · split_ifs at hreq
      · simp at hreq
      · simp only [List.mem_cons, recoveryRequest, rebalanceRequest, Event.request.injEq,
          List.mem_singleton, List.not_mem_nil, or_false] at hreq
        rcases hreq with ⟨h1, _⟩ | ⟨_, h2⟩
        · exact absurd h1 (by decide)
        · exact h2
      · simp only [List.mem_singleton, recoveryRequest, Event.request.injEq] at hreq
        exact absurd hreq.1 (by decide)
  · rintro ⟨hh, hs, hr⟩
    have hne := getAllNodes_ne_nil_of_detected resp hh
    have hact := actOnSnapshot_completes isDryRun env resp (trackerChecks env s).1 hh hs hr
    refine ⟨hne, ?_, ?_, ?_⟩
    · intro node hnode
      rw [getAllNodes_eq_map]
      exact List.mem_map_of_mem _ hnode
    · apply mem_trace_of_mem_act isDryRun env s resp hp hu
      rw [hact]
      have : rebalanceListLog (getAllNodes resp)
          ∈ (rebalanceCluster (getAllNodes resp) isDryRun env.rebalance).2 := by
        cases isDryRun
        · rw [rebalanceCluster_live_events _ _ hne]; simp
        · rw [rebalanceCluster_dry _ _ hne]; simp
      simp [this]
    · intro hdry
      subst hdry
      apply mem_trace_of_mem_act false env s resp hp hu
      rw [hact, rebalanceCluster_live_events _ _ hne]
      simp

theorem rebalance_lists_every_member_witness :
    (getAllNodes exampleSnapshot).length = 3 ∧
    reachesRebalance false exampleEnv exampleSnapshot ∧
    rebalanceRequest ["ns_1@cb1", "ns_1@cb2", "ns_1@cb3"]
      ∈ (mainLoopIteration false exampleEnv initialState).trace := by
  have hreach : reachesRebalance false exampleEnv exampleSnapshot := by
    unfold reachesRebalance; decide
  have h := rebalance_lists_every_member exampleSnapshot
  exact ⟨h.1, hreach,
    ((h.2.2 false exampleEnv initialState rfl rfl).2 hreach).2.2.2 rfl⟩

/-- Claim C3. Health gate: when the single non-active node of the snapshot
is not `"healthy"`, the iteration issues no request besides the snapshot fetch
(no recovery request, no rebalance request) and ends with the loop variables
(both counts and both window starts) exactly as the tracker checks of that
iteration left them. -/
theorem health_gate (isDryRun : Bool) (env : Env) (s : LoopState) (resp : nodesResponse)
    (n : nodeMap) (hp : env.pools.err = none) (hu : env.unmarshal = Except.ok resp)
    (hone : failedMembers resp = [n]) (hst : n.Status ≠ "healthy") :
    requestsOf (mainLoopIteration isDryRun env s).trace = [Event.request "/pools/default" none] ∧
    (mainLoopIteration isDryRun env s).state = (trackerChecks env s).1 := by
  have hfn := getFailedNode_of_single resp n hone
  constructor
  · rw [requestsOf_iteration isDryRun env s resp hp hu, requestsOf_actOnSnapshot, hfn]
    simp [hst]
  · rw [mainLoopIteration_of_snapshot isDryRun env s resp hp hu]
    by_cases hh : n.Hostname = ""
    · rw [actOnSnapshot_noNode _ _ _ _ (by rw [hfn]; exact hh)]
    · rw [actOnSnapshot_unhealthy _ _ _ _ (by rw [hfn]; exact hh) (by rw [hfn]; exact hst)]

theorem health_gate_witness :
    requestsOf (mainLoopIteration false exampleEnvUnhealthy initialState).trace
      = [Event.request "/pools/default" none] ∧
    (mainLoopIteration false exampleEnvUnhealthy initialState).state
      = (trackerChecks exampleEnvUnhealthy initialState).1 :=
  health_gate false exampleEnvUnhealthy initialState exampleSnapshotUnhealthy
    exampleNode2Unhealthy rfl rfl (by decide) (by decide)

/-! ## Go maps: reading after writing -/

theorem assocGet_assocSet_self (k : String) (v : Int) (l : List (String × Int)) :
    assocGet k (assocSet k v l) = some v := by
  induction l with
  | nil => simp [assocSet, assocGet]
  | cons hd tl ih =>
    obtain ⟨k', v'⟩ := hd
    by_cases h : k' = k
    · simp [assocSet, assocGet, h]
    · simp [assocSet, assocGet, h, ih]

theorem assocGet_assocSet_ne (k k2 : String) (v : Int) (l : List (String × Int))
    (hne : k2 ≠ k) : assocGet k2 (assocSet k v l) = assocGet k2 l := by
  induction l with
  | nil => simp [assocSet, assocGet, hne.symm]
  | cons hd tl ih =>
    obtain ⟨k', v'⟩ := hd
    by_cases h : k' = k
    · subst h
      simp [assocSet, assocGet, hne.symm]
    · by_cases h2 : k' = k2
      · subst h2
        simp [assocSet, assocGet, h]
      · simp [assocSet, assocGet, h, h2, ih]

theorem GoMap.get_set_self (m : GoMap) (k : String) (v : Int) : (m.set k v).get k = v := by
  simp [GoMap.get, GoMap.set, assocGet_assocSet_self]

theorem GoMap.get_set_ne (m : GoMap) (k k2 : String) (v : Int) (hne : k2 ≠ k) :
    (m.set k v).get k2 = m.get k2 := by
  simp [GoMap.get, GoMap.set, assocGet_assocSet_ne k k2 v m.entries hne]

theorem GoMap.get_of_absent (m : GoMap) (k : String) (h : assocGet k m.entries = none) :
    m.get k = 0 := by
  simp [GoMap.get, h]

/-- A recovery request appears in an iteration only when the iteration is not
a dry run and the failed node passed the guards of `main.go:73-74`. -/
theorem conditions_of_recoveryRequest (isDryRun : Bool) (env : Env) (s : LoopState)
    (resp : nodesResponse) (n : nodeMap) (hp : env.pools.err = none)
    (hu : env.unmarshal = Except.ok resp) (hone : failedMembers resp = [n])
    (hissued : recoveryRequest n ∈ (mainLoopIteration isDryRun env s).trace) :
    isDryRun = false ∧ n.Hostname ≠ "" ∧ n.Status = "healthy" := by
  have hreq : recoveryRequest n ∈ requestsOf (mainLoopIteration isDryRun env s).trace :=
    (mem_requestsOf _ _).mpr ⟨hissued, _, _, rfl⟩
  rw [requestsOf_iteration isDryRun env s resp hp hu, requestsOf_actOnSnapshot,
    getFailedNode_of_single resp n hone] at hreq
  by_cases hc : n.Hostname = "" ∨ n.Status ≠ "healthy" ∨ isDryRun = true
  · simp only [hc, if_true, List.mem_cons, List.not_mem_nil, or_false, recoveryRequest,
      Event.request.injEq] at hreq
    exact absurd hreq.1 (by decide)
  · simp only [not_or, ne_eq, not_not, Bool.not_eq_true] at hc
    exact ⟨hc.2.2, hc.1, hc.2.1⟩

/-- Claim C4. Completed cycle: on a snapshot with exactly one non-active node
`n` that is healthy, when the iteration issues the recovery request for `n` and
that request succeeds, the requests of the iteration are the snapshot fetch,
one recovery request for `n.OtpNode` and then one rebalance request listing
all members. Relative to the state left by the tracker checks of the
iteration, the cluster count and the count of `n.Hostname` grow by one (an
absent hostname ends at 1), every other hostname keeps its count, and each
window start is set to the clock reading when it was zero and kept otherwise.
On the three-member example the result is cluster count 1, count 1 for the
second member and both window starts set. -/
theorem completed_cycle (isDryRun : Bool) (env : Env) (s : LoopState) (resp : nodesResponse)
    (n : nodeMap) (hp : env.pools.err = none) (hu : env.unmarshal = Except.ok resp)
    (hone : failedMembers resp = [n]) (hhealthy : n.Status = "healthy")
    (hissued : recoveryRequest n ∈ (mainLoopIteration isDryRun env s).trace)
    (hok : env.recovery.succeeds) :
    (requestsOf (mainLoopIteration isDryRun env s).trace =
      [Event.request "/pools/default" none, recoveryRequest n,
        rebalanceRequest (resp.Nodes.map (fun node => node.OtpNode))] ∧
    (mainLoopIteration isDryRun env s).state.clusterRebalanceCount =
      (trackerChecks env s).1.clusterRebalanceCount + 1 ∧
    (mainLoopIteration isDryRun env s).state.nodeRebalanceCount.get n.Hostname =
      (trackerChecks env s).1.nodeRebalanceCount.get n.Hostname + 1 ∧
    (assocGet n.Hostname (trackerChecks env s).1.nodeRebalanceCount.entries = none →
      (mainLoopIteration isDryRun env s).state.nodeRebalanceCount.get n.Hostname = 1) ∧
    (∀ h : String, h ≠ n.Hostname →
      (mainLoopIteration isDryRun env s).state.nodeRebalanceCount.get h =
        (trackerChecks env s).1.nodeRebalanceCount.get h) ∧
    (mainLoopIteration isDryRun env s).state.clusterStart =
      (if (trackerChecks env s).1.clusterStart = 0 then env.armCluster
       else (trackerChecks env s).1.clusterStart) ∧
    (mainLoopIteration isDryRun env s).state.nodeStart =
      (if (trackerChecks env s).1.nodeStart = 0 then env.armNode
       else (trackerChecks env s).1.nodeStart)) ∧
    ((mainLoopIteration false exampleEnv initialState).state.clusterRebalanceCount = 1 ∧
     (mainLoopIteration false exampleEnv initialState).state.nodeRebalanceCount.get
        exampleNode2.Hostname = 1 ∧
     (mainLoopIteration false exampleEnv initialState).state.clusterStart = exampleEnv.armCluster ∧
     (mainLoopIteration false exampleEnv initialState).state.nodeStart = exampleEnv.armNode ∧
     exampleEnv.armCluster ≠ 0 ∧ exampleEnv.armNode ≠ 0) := by
  refine ⟨?_, by decide⟩
  obtain ⟨hdry, hhost, _⟩ := conditions_of_recoveryRequest isDryRun env s resp n hp hu hone hissued
  subst hdry
  have hfn := getFailedNode_of_single resp n hone
  have hrec : (recoverNode (getFailedNode resp).1 false env.recovery).1.2 = none :=
    (recoverNode_live_error _ _).mpr hok
  have hact := actOnSnapshot_completes false env resp (trackerChecks env s).1
    (by rw [hfn]; exact hhost) (by rw [hfn]; exact hhealthy) hrec
  have hstate : (mainLoopIteration false env s).state =
      countAndArm env n.Hostname (trackerChecks env s).1 := by
    rw [mainLoopIteration_of_snapshot false env s resp hp hu, hact, hfn]
  refine ⟨?_, ?_, ?_, ?_, ?_, ?_, ?_⟩
  · rw [requestsOf_iteration false env s resp hp hu, requestsOf_actOnSnapshot, hfn]
    rw [hfn] at hrec
    simp [hhost, hhealthy, hrec, getAllNodes_eq_map]
  · rw [hstate]; rfl
  · rw [hstate]; exact GoMap.get_set_self _ _ _
  · intro habs
    rw [hstate]
    simp only [countAndArm, GoMap.get_set_self, GoMap.get_of_absent _ _ habs]
    rfl
  · intro h hne
    rw [hstate]
    exact GoMap.get_set_ne _ _ _ _ hne
  · rw [hstate]; simp [countAndArm, isZero]
  · rw [hstate]; simp [countAndArm, isZero]

theorem completed_cycle_witness :
    failedMembers exampleSnapshot = [exampleNode2] ∧ exampleNode2.Status = "healthy" ∧
    requestsOf (mainLoopIteration false exampleEnv initialState).trace =
      [Event.request "/pools/default" none, recoveryRequest exampleNode2,
        rebalanceRequest ["ns_1@cb1", "ns_1@cb2", "ns_1@cb3"]] :=
  ⟨by decide, by decide,
    (completed_cycle false exampleEnv initialState exampleSnapshot exampleNode2 rfl rfl
      (by decide) (by decide) (by decide) (by decide)).1.1⟩

/-- Claim C5. `recoverNode` returns an error exactly when the run is not a
dry run and the request ends in a transport error or a status other than 200.
When it returns an error for the single non-active node of the snapshot, the
iteration issues no rebalance request and ends with the loop variables (both
counts and both window starts) as the tracker checks left them. -/
theorem recovery_failure_aborts (isDryRun : Bool) (env : Env) (s : LoopState)
    (resp : nodesResponse) (n : nodeMap) (hp : env.pools.err = none)
    (hu : env.unmarshal = Except.ok resp) (hone : failedMembers resp = [n]) :
    (∀ (node : nodeMap) (dry : Bool) (answer : HttpResult),
      (recoverNode node dry answer).1.2 ≠ none ↔
        (dry = false ∧ (answer.err ≠ none ∨ answer.statusCode ≠ 200))) ∧
    ((recoverNode n isDryRun env.recovery).1.2 ≠ none →
      (∀ form, Event.request "/controller/rebalance" form
        ∉ (mainLoopIteration isDryRun env s).trace) ∧
      (mainLoopIteration isDryRun env s).state = (trackerChecks env s).1) := by
  constructor
  · intro node dry answer
    cases dry
    · rw [ne_eq, recoverNode_live_error]
      simp only [HttpResult.succeeds, statusOK, true_and, ne_eq]
      tauto
    · simp [recoverNode_dry]
  · intro hfail
    have hfn := getFailedNode_of_single resp n hone
    constructor
    · intro form hmem
      have hreq : Event.request "/controller/rebalance" form
          ∈ requestsOf (mainLoopIteration isDryRun env s).trace :=
        (mem_requestsOf _ _).mpr ⟨hmem, _, _, rfl⟩
      rw [requestsOf_iteration isDryRun env s resp hp hu, requestsOf_actOnSnapshot, hfn] at hreq
      simp only [List.mem_cons, Event.request.injEq] at hreq
      rcases hreq with ⟨h1, _⟩ | hreq
      · exact absurd h1 (by decide)
      · split_ifs at hreq
        · simp at hreq
        · simp only [List.mem_singleton, recoveryRequest, Event.request.injEq] at hreq
          exact absurd hreq.1 (by decide)
    · rw [mainLoopIteration_of_snapshot isDryRun env s resp hp hu]
      by_cases hh : n.Hostname = ""
      · rw [actOnSnapshot_noNode _ _ _ _ (by rw [hfn]; exact hh)]
      · by_cases hs : n.Status = "healthy"
        · rw [actOnSnapshot_recoverFails _ _ _ _ (by rw [hfn]; exact hh) (by rw [hfn]; exact hs)
            (by rw [hfn]; exact hfail)]
        · rw [actOnSnapshot_unhealthy _ _ _ _ (by rw [hfn]; exact hh) (by rw [hfn]; exact hs)]

theorem recovery_failure_aborts_witness :
    (recoverNode exampleNode2 false exampleEnvRecoveryFails.recovery).1.2 ≠ none ∧
    recoveryRequest exampleNode2
      ∈ (mainLoopIteration false exampleEnvRecoveryFails initialState).trace ∧
    (mainLoopIteration false exampleEnvRecoveryFails initialState).state
      = (trackerChecks exampleEnvRecoveryFails initialState).1 :=
  ⟨by decide, by decide,
    ((recovery_failure_aborts false exampleEnvRecoveryFails initialState exampleSnapshot
      exampleNode2 rfl rfl (by decide)).2 (by decide)).2⟩

/-- The loop variables at the end of an iteration that reaches the call of
`rebalanceCluster`. -/
theorem state_of_completed (isDryRun : Bool) (env : Env) (s : LoopState)
    (resp : nodesResponse) (n : nodeMap) (hp : env.pools.err = none)
    (hu : env.unmarshal = Except.ok resp) (hone : failedMembers resp = [n])
    (hhost : n.Hostname ≠ "") (hhealthy : n.Status = "healthy")
    (hrec : (recoverNode n isDryRun env.recovery).1.2 = none) :
    (mainLoopIteration isDryRun env s).state =
      countAndArm env n.Hostname (trackerChecks env s).1 := by
  have hfn := getFailedNode_of_single resp n hone
  rw [mainLoopIteration_of_snapshot isDryRun env s resp hp hu,
    actOnSnapshot_completes isDryRun env resp (trackerChecks env s).1
      (by rw [hfn]; exact hhost) (by rw [hfn]; exact hhealthy) (by rw [hfn]; exact hrec), hfn]

/-- Claim C6. Rebalance failure still consumes budget: on a snapshot with one
healthy non-active node whose recovery request is issued and succeeds, the
loop variables after the iteration are the same for any two answers to the
rebalance request (success, transport error or a status other than 200); for
every answer the cluster count and the count of the node's hostname are one more
than after the tracker checks, and a window start that was zero is set to the
clock reading. -/
theorem rebalance_failure_still_counts (isDryRun : Bool) (env : Env) (s : LoopState)
    (resp : nodesResponse) (n : nodeMap) (rb1 rb2 : HttpResult) (hp : env.pools.err = none)
    (hu : env.unmarshal = Except.ok resp) (hone : failedMembers resp = [n])
    (hhealthy : n.Status = "healthy")
    (hissued : recoveryRequest n
      ∈ (mainLoopIteration isDryRun { env with rebalance := rb1 } s).trace)
    (hok : env.recovery.succeeds) :
    (mainLoopIteration isDryRun { env with rebalance := rb1 } s).state =
      (mainLoopIteration isDryRun { env with rebalance := rb2 } s).state ∧
    ∀ rb : HttpResult,
      (mainLoopIteration isDryRun { env with rebalance := rb } s).state.clusterRebalanceCount =
        (trackerChecks env s).1.clusterRebalanceCount + 1 ∧
      (mainLoopIteration isDryRun { env with rebalance := rb } s).state.nodeRebalanceCount.get
          n.Hostname = (trackerChecks env s).1.nodeRebalanceCount.get n.Hostname + 1 ∧
      ((trackerChecks env s).1.clusterStart = 0 →
        (mainLoopIteration isDryRun { env with rebalance := rb } s).state.clusterStart
          = env.armCluster) ∧
      ((trackerChecks env s).1.nodeStart = 0 →
        (mainLoopIteration isDryRun { env with rebalance := rb } s).state.nodeStart
          = env.armNode) := by
  obtain ⟨hdry, hhost, _⟩ := conditions_of_recoveryRequest isDryRun
    { env with rebalance := rb1 } s resp n hp hu hone hissued
  subst hdry
  have hrec : (recoverNode n false env.recovery).1.2 = none :=
    (recoverNode_live_error _ _).mpr hok
  have hstate : ∀ rb, (mainLoopIteration false { env with rebalance := rb } s).state =
      countAndArm env n.Hostname (trackerChecks env s).1 := fun rb =>
    state_of_completed false { env with rebalance := rb } s resp n hp hu hone hhost hhealthy hrec
  refine ⟨by rw [hstate rb1, hstate rb2], ?_⟩
  intro rb
  rw [hstate rb]
  refine ⟨rfl, GoMap.get_set_self _ _ _, ?_, ?_⟩
  · intro h0; simp [countAndArm, isZero, h0]
  · intro h0; simp [countAndArm, isZero, h0]

theorem rebalance_failure_still_counts_witness :
    okAnswer.succeeds ∧ ¬ errorAnswer.succeeds ∧
    (mainLoopIteration false { exampleEnv with rebalance := okAnswer } initialState).state =
      (mainLoopIteration false { exampleEnv with rebalance := errorAnswer } initialState).state ∧
    (mainLoopIteration false { exampleEnv with rebalance := errorAnswer }
      initialState).state.clusterRebalanceCount = 1 :=
  ⟨by decide, by decide,
    (rebalance_failure_still_counts false exampleEnv initialState exampleSnapshot exampleNode2
      okAnswer errorAnswer rfl rfl (by decide) (by decide) (by decide) (by decide)).1,
    by decide⟩

/-- Claim C7. Dry-run equivalence: on a snapshot with exactly one non-active
node that is healthy, a dry-run iteration issues no request besides the
snapshot fetch (no recovery request, no rebalance request) and ends with the
same loop variables as an iteration that is not a dry run and whose recovery
request succeeds, from the same state, snapshot and clock readings, whatever
the collaborator would have answered in the dry run and whatever it answers
to the rebalance request. -/
theorem dry_run_equivalence (env : Env) (s : LoopState) (resp : nodesResponse) (n : nodeMap)
    (rc rb : HttpResult) (hp : env.pools.err = none) (hu : env.unmarshal = Except.ok resp)
    (hone : failedMembers resp = [n]) (hhealthy : n.Status = "healthy")
    (hok : env.recovery.succeeds) :
    requestsOf (mainLoopIteration true { env with recovery := rc, rebalance := rb } s).trace =
      [Event.request "/pools/default" none] ∧
    (mainLoopIteration true { env with recovery := rc, rebalance := rb } s).state =
      (mainLoopIteration false env s).state := by
  have hfn := getFailedNode_of_single resp n hone
  have hp2 : ({ env with recovery := rc, rebalance := rb } : Env).pools.err = none := hp
  have hu2 : ({ env with recovery := rc, rebalance := rb } : Env).unmarshal = Except.ok resp := hu
  have htc : trackerChecks { env with recovery := rc, rebalance := rb } s = trackerChecks env s :=
    rfl
  constructor
  · rw [requestsOf_iteration true { env with recovery := rc, rebalance := rb } s resp hp2 hu2,
      requestsOf_actOnSnapshot]
    simp
  · by_cases hhost : n.Hostname = ""
    · rw [mainLoopIteration_of_snapshot true { env with recovery := rc, rebalance := rb } s resp
          hp2 hu2,
        mainLoopIteration_of_snapshot false env s resp hp hu,
        actOnSnapshot_noNode _ _ _ _ (by rw [hfn]; exact hhost),
        actOnSnapshot_noNode _ _ _ _ (by rw [hfn]; exact hhost), htc]
    · rw [state_of_completed true { env with recovery := rc, rebalance := rb } s resp n hp2 hu2
          hone hhost hhealthy (by rw [recoverNode_dry]),
        state_of_completed false env s resp n hp hu hone hhost hhealthy
          ((recoverNode_live_error _ _).mpr hok)]
      rfl

theorem dry_run_equivalence_witness :
    requestsOf (mainLoopIteration true
        { exampleEnv with recovery := errorAnswer, rebalance := errorAnswer } initialState).trace
      = [Event.request "/pools/default" none] ∧
    (mainLoopIteration true
        { exampleEnv with recovery := errorAnswer, rebalance := errorAnswer } initialState).state
      = (mainLoopIteration false exampleEnv initialState).state ∧
    (mainLoopIteration false exampleEnv initialState).state.clusterRebalanceCount = 1 :=
  ⟨(dry_run_equivalence exampleEnv initialState exampleSnapshot exampleNode2 errorAnswer
      errorAnswer rfl rfl (by decide) (by decide) (by decide)).1,
   (dry_run_equivalence exampleEnv initialState exampleSnapshot exampleNode2 errorAnswer
      errorAnswer rfl rfl (by decide) (by decide) (by decide)).2,
   by decide⟩

/-- On a snapshot with exactly one non-active node, the recovery request for
that node is issued exactly when the iteration is not a dry run and the node
passes the guards of `main.go:73-74`. -/
theorem recoveryRequest_issued_iff (isDryRun : Bool) (env : Env) (s : LoopState)
    (resp : nodesResponse) (n : nodeMap) (hp : env.pools.err = none)
    (hu : env.unmarshal = Except.ok resp) (hone : failedMembers resp = [n]) :
    recoveryRequest n ∈ (mainLoopIteration isDryRun env s).trace ↔
      (isDryRun = false ∧ n.Hostname ≠ "" ∧ n.Status = "healthy") := by
  constructor
  · exact conditions_of_recoveryRequest isDryRun env s resp n hp hu hone
  · rintro ⟨hdry, hhost, hhealthy⟩
    have hmem : recoveryRequest n ∈ requestsOf (mainLoopIteration isDryRun env s).trace := by
      rw [requestsOf_iteration isDryRun env s resp hp hu, requestsOf_actOnSnapshot,
        getFailedNode_of_single resp n hone]
      simp only [hhost, hhealthy, hdry, ne_eq, not_true_eq_false, Bool.false_eq_true, or_self,
        if_false]
      split_ifs <;> simp
    exact ((mem_requestsOf _ _).mp hmem).1

/-! ## Backoff trackers: proofs -/

/-- Saturation of `time.Since` does not change a comparison with two hours. -/
theorem timeSince_ge_two_hours (now t : Time) :
    timeSince now t ≥ 2 * hour ↔ now - t ≥ 2 * hour := by
  unfold timeSince maxDuration minDuration hour
  simp only [Time, Duration] at *
  split_ifs <;> constructor <;> intro h <;> omega

theorem sleepsOf_append (a b : List Event) : sleepsOf (a ++ b) = sleepsOf a ++ sleepsOf b := by
  simp [sleepsOf]

theorem sleepsOf_checkForMultipleRebalances (m : GoMap) (v : Int) :
    sleepsOf (checkForMultipleRebalances m v).2 = [] := by
  unfold checkForMultipleRebalances
  split <;> rfl

/-- Claim C8. Cluster backoff trip: with a non-zero window start `T` and less
than two hours elapsed, `handleClusterRebalanceBackoff` penalizes exactly when
the count is at least 3: then the count becomes 0, the window start becomes
the zero time and the only sleep is one of four hours; with a count below 3
the count and the window start stay as they are and there is no sleep. -/
theorem cluster_backoff_trip (nowSince nowReset T : Time) (count : Int) (hT : T ≠ 0)
    (hel : nowSince - T < 2 * hour) :
    (count ≥ 3 →
      (handleClusterRebalanceBackoff nowSince nowReset T count).1 = (zeroTime, 0) ∧
      sleepsOf (handleClusterRebalanceBackoff nowSince nowReset T count).2 = [4 * hour]) ∧
    (count < 3 →
      (handleClusterRebalanceBackoff nowSince nowReset T count).1 = (T, count) ∧
      sleepsOf (handleClusterRebalanceBackoff nowSince nowReset T count).2 = []) := by
  have ht : ¬ timeSince nowSince T ≥ 2 * hour := by
    rw [timeSince_ge_two_hours]; exact not_le.mpr hel
  constructor
  · intro hc
    rw [handleCluster_penalty nowSince nowReset T count hT ht hc]
    exact ⟨rfl, rfl⟩
  · intro hc
    rw [handleCluster_keep nowSince nowReset T count hT ht (by omega)]
    exact ⟨rfl, rfl⟩

theorem cluster_backoff_trip_witness :
    (handleClusterRebalanceBackoff (500 + hour) (501 + hour) 500 3).1 = (zeroTime, 0) ∧
    sleepsOf (handleClusterRebalanceBackoff (500 + hour) (501 + hour) 500 3).2 = [4 * hour] ∧
    (handleClusterRebalanceBackoff (500 + hour) (501 + hour) 500 2).1 = (500, 2) ∧
    sleepsOf (handleClusterRebalanceBackoff (500 + hour) (501 + hour) 500 2).2 = [] :=
  ⟨((cluster_backoff_trip (500 + hour) (501 + hour) 500 3 (by decide) (by decide)).1
      (by decide)).1,
   ((cluster_backoff_trip (500 + hour) (501 + hour) 500 3 (by decide) (by decide)).1
      (by decide)).2,
   ((cluster_backoff_trip (500 + hour) (501 + hour) 500 2 (by decide) (by decide)).2
      (by decide)).1,
   ((cluster_backoff_trip (500 + hour) (501 + hour) 500 2 (by decide) (by decide)).2
      (by decide)).2⟩

/-- Claim C9. Cluster window rollover: with a non-zero window start and at
least two hours elapsed (exactly two hours included), for every value of the
count `handleClusterRebalanceBackoff` sets the count to 0 and the window start
to the clock reading, and does not sleep. -/
theorem cluster_window_rollover (nowSince nowReset T : Time) (count : Int) (hT : T ≠ 0)
    (hel : nowSince - T ≥ 2 * hour) :
    (handleClusterRebalanceBackoff nowSince nowReset T count).1 = (nowReset, 0) ∧
    sleepsOf (handleClusterRebalanceBackoff nowSince nowReset T count).2 = [] := by
  rw [handleCluster_roll nowSince nowReset T count hT ((timeSince_ge_two_hours _ _).mpr hel)]
  exact ⟨rfl, rfl⟩

theorem cluster_window_rollover_witness :
    ((500 + 2 * hour : Time) - 500 ≥ 2 * hour) ∧
    (handleClusterRebalanceBackoff (500 + 2 * hour) (501 + 2 * hour) 500 2).1
      = (501 + 2 * hour, 0) ∧
    sleepsOf (handleClusterRebalanceBackoff (500 + 2 * hour) (501 + 2 * hour) 500 7).2 = [] :=
  ⟨by decide,
   (cluster_window_rollover (500 + 2 * hour) (501 + 2 * hour) 500 2 (by decide) (by decide)).1,
   (cluster_window_rollover (500 + 2 * hour) (501 + 2 * hour) 500 7 (by decide) (by decide)).2⟩

theorem mem_of_assocGet (k : String) (v : Int) (l : List (String × Int))
    (h : assocGet k l = some v) : (k, v) ∈ l := by
  induction l with
  | nil => simp [assocGet] at h
  | cons hd tl ih =>
    obtain ⟨k', v'⟩ := hd
    by_cases hk : k' = k
    · simp only [assocGet, hk, if_true, Option.some.injEq] at h
      simp [hk, h]
    · simp only [assocGet, hk, if_false] at h
      exact List.mem_cons_of_mem _ (ih h)

theorem assocGet_of_mem (k : String) (v : Int) (l : List (String × Int))
    (hnd : (l.map Prod.fst).Nodup) (h : (k, v) ∈ l) : assocGet k l = some v := by
  induction l with
  | nil => simp at h
  | cons hd tl ih =>
    obtain ⟨k', v'⟩ := hd
    rw [List.map_cons, List.nodup_cons] at hnd
    rcases List.mem_cons.mp h with heq | htl
    · cases heq
      simp [assocGet]
    · have hne : k' ≠ k := by
        intro e
        subst e
        exact hnd.1 (List.mem_map.mpr ⟨(k', v), htl, rfl⟩)
      simp only [assocGet, hne, if_false]
      exact ih hnd.2 htl

/-- When some hostname has a count of at least `v`, `checkForMultipleRebalances`
reports a hostname whose count is at least `v`. -/
theorem checkForMultipleRebalances_found (m : GoMap) (v : Int) (hv : 0 < v)
    (hex : ∃ h, m.get h ≥ v) :
    (checkForMultipleRebalances m v).1.1 = true ∧
      m.get (checkForMultipleRebalances m v).1.2 ≥ v := by
  obtain ⟨h, hge⟩ := hex
  have hentry : ∃ w, (h, w) ∈ m.entries ∧ w ≥ v := by
    unfold GoMap.get at hge
    cases hg : assocGet h m.entries with
    | none => rw [hg] at hge; simp only at hge; omega
    | some w => rw [hg] at hge; exact ⟨w, mem_of_assocGet h w m.entries hg, hge⟩
  obtain ⟨w, hmem, hw⟩ := hentry
  unfold checkForMultipleRebalances
  cases hf : m.entries.find? (fun e => decide (e.2 ≥ v)) with
  | none =>
    rw [List.find?_eq_none] at hf
    have := hf (h, w) hmem
    simp at this
    omega
  | some e =>
    obtain ⟨i, x⟩ := e
    have hp := List.find?_some hf
    have hin := List.mem_of_find?_eq_some hf
    simp only [decide_eq_true_eq] at hp
    refine ⟨rfl, ?_⟩
    simp only [GoMap.get, assocGet_of_mem i x m.entries m.nodup hin]
    exact hp

/-- Claim C10. Per-node independence: when `handleNodeRebalanceBackoff` takes
its penalty branch (window start non-zero, less than two hours elapsed, some
hostname with count at least 2), the hostname `A` picked by
`checkForMultipleRebalances` had count at least 2 and ends with count 0, every
other hostname keeps its count, the node window start becomes the zero time,
the penalty sleep of four hours is the only sleep, and the cluster count and
cluster window start are not changed by the call. -/
theorem node_penalty_independence (env : Env) (s : LoopState) (hT : s.nodeStart ≠ 0)
    (hel : env.nodeSince - s.nodeStart < 2 * hour)
    (hex : ∃ h, s.nodeRebalanceCount.get h ≥ 2) :
    s.nodeRebalanceCount.get (checkForMultipleRebalances s.nodeRebalanceCount 2).1.2 ≥ 2 ∧
    (nodeCheck env s).1.nodeRebalanceCount.get
      (checkForMultipleRebalances s.nodeRebalanceCount 2).1.2 = 0 ∧
    (∀ B : String, B ≠ (checkForMultipleRebalances s.nodeRebalanceCount 2).1.2 →
      (nodeCheck env s).1.nodeRebalanceCount.get B = s.nodeRebalanceCount.get B) ∧
    (nodeCheck env s).1.nodeStart = zeroTime ∧
    sleepsOf (nodeCheck env s).2 = [4 * hour] ∧
    (nodeCheck env s).1.clusterRebalanceCount = s.clusterRebalanceCount ∧
    (nodeCheck env s).1.clusterStart = s.clusterStart := by
  have ht : ¬ timeSince env.nodeSince s.nodeStart ≥ 2 * hour := by
    rw [timeSince_ge_two_hours]; exact not_le.mpr hel
  obtain ⟨hfound, hcount⟩ :=
    checkForMultipleRebalances_found s.nodeRebalanceCount 2 (by decide) hex
  have hcall := handleNode_penalty env.nodeSince env.nodeReset s.nodeStart
    s.nodeRebalanceCount hT ht hfound
  refine ⟨hcount, ?_, ?_, ?_, ?_, rfl, rfl⟩
  · simp only [nodeCheck, hcall]
    exact GoMap.get_set_self _ _ _
  · intro B hB
    simp only [nodeCheck, hcall]
    exact GoMap.get_set_ne _ _ _ _ hB
  · simp only [nodeCheck, hcall]
  · simp only [nodeCheck, hcall, sleepsOf_append, sleepsOf_checkForMultipleRebalances]
    rfl

theorem node_penalty_independence_witness :
    exampleBusyState.nodeRebalanceCount.get "cb2:8091" = 2 ∧
    (checkForMultipleRebalances exampleBusyState.nodeRebalanceCount 2).1.2 = "cb2:8091" ∧
    (nodeCheck exampleEnv exampleBusyState).1.nodeRebalanceCount.get "cb2:8091" = 0 ∧
    (nodeCheck exampleEnv exampleBusyState).1.nodeRebalanceCount.get "cb1:8091" = 1 ∧
    (nodeCheck exampleEnv exampleBusyState).1.clusterRebalanceCount = 3 := by
  have h := node_penalty_independence exampleEnv exampleBusyState (by decide) (by decide)
    ⟨"cb2:8091", by decide⟩
  have hA : (checkForMultipleRebalances exampleBusyState.nodeRebalanceCount 2).1.2
      = "cb2:8091" := by decide
  rw [hA] at h
  exact ⟨by decide, hA, h.2.1, (h.2.2.1 "cb1:8091" (by decide)).trans (by decide),
    h.2.2.2.2.2.1⟩

/-! ## Backoff trackers: inert state, node window and node trigger -/

theorem GoMap.get_empty (h : String) : GoMap.empty.get h = 0 := rfl

/-- When every hostname has a count below `v`, `checkForMultipleRebalances`
finds nothing and logs nothing. -/
theorem checkForMultipleRebalances_none (m : GoMap) (v : Int) (hall : ∀ h, m.get h < v) :
    checkForMultipleRebalances m v = ((false, ""), []) := by
  unfold checkForMultipleRebalances
  have hf : m.entries.find? (fun e => decide (e.2 ≥ v)) = none := by
    rw [List.find?_eq_none]
    intro e he
    obtain ⟨k, x⟩ := e
    have hg := hall k
    simp only [GoMap.get, assocGet_of_mem k x m.entries m.nodup he] at hg
    simp only [decide_eq_true_eq, not_le, ge_iff_le]
    exact hg
  rw [hf]

/-- Claim C11. Inert trackers never act: with a zero window start, for every
count and every count map (also at or above the limits),
`handleClusterRebalanceBackoff` and `handleNodeRebalanceBackoff` return the
count or map and the window start as they were and produce no event at all, so
no sleep. -/
theorem inert_trackers_never_act (nowSince nowReset : Time) (count : Int) (m : GoMap) :
    handleClusterRebalanceBackoff nowSince nowReset zeroTime count = ((zeroTime, count), []) ∧
    handleNodeRebalanceBackoff nowSince nowReset zeroTime m = ((zeroTime, m), []) ∧
    sleepsOf (handleClusterRebalanceBackoff nowSince nowReset zeroTime count).2 = [] ∧
    sleepsOf (handleNodeRebalanceBackoff nowSince nowReset zeroTime m).2 = [] := by
  rw [handleCluster_inert nowSince nowReset zeroTime count rfl,
    handleNode_inert nowSince nowReset zeroTime m rfl]
  exact ⟨rfl, rfl, rfl, rfl⟩

/-- Claim C13. Node window rollover: with a non-zero window start and at least
two hours elapsed, `handleNodeRebalanceBackoff` replaces the count map by an
empty map, so that every hostname reads 0 afterwards whatever its count was,
sets the window start to the clock reading and does not sleep. -/
theorem node_window_rollover (nowSince nowReset T : Time) (m : GoMap) (hT : T ≠ 0)
    (hel : nowSince - T ≥ 2 * hour) :
    (handleNodeRebalanceBackoff nowSince nowReset T m).1 = (nowReset, GoMap.empty) ∧
    (∀ h : String, (handleNodeRebalanceBackoff nowSince nowReset T m).1.2.get h = 0) ∧
    sleepsOf (handleNodeRebalanceBackoff nowSince nowReset T m).2 = [] := by
  rw [handleNode_roll nowSince nowReset T m hT ((timeSince_ge_two_hours _ _).mpr hel)]
  refine ⟨rfl, fun h => rfl, ?_⟩
  rw [sleepsOf_append, sleepsOf_checkForMultipleRebalances]
  rfl

theorem node_window_rollover_witness :
    exampleBusyState.nodeRebalanceCount.get "cb2:8091" = 2 ∧
    (handleNodeRebalanceBackoff (600 + 2 * hour) (601 + 2 * hour) 600
      exampleBusyState.nodeRebalanceCount).1.1 = 601 + 2 * hour ∧
    (handleNodeRebalanceBackoff (600 + 2 * hour) (601 + 2 * hour) 600
      exampleBusyState.nodeRebalanceCount).1.2.get "cb2:8091" = 0 :=
  ⟨by decide,
   congrArg Prod.fst (node_window_rollover (600 + 2 * hour) (601 + 2 * hour) 600
      exampleBusyState.nodeRebalanceCount (by decide) (by decide)).1,
   (node_window_rollover (600 + 2 * hour) (601 + 2 * hour) 600
      exampleBusyState.nodeRebalanceCount (by decide) (by decide)).2.1 "cb2:8091"⟩

/-- Claim C14. Node backoff trigger: with a non-zero window start and less
than two hours elapsed, `handleNodeRebalanceBackoff` clears the window start
and sleeps once for four hours if and only if some hostname has a count of at
least 2; when every count is below 2 the map and the window start stay as
they are and there is no sleep. `checkForMultipleRebalances m 2` returns
`true` with a hostname whose count is at least 2 when there is one, and
`(false, "")` otherwise. -/
theorem node_backoff_trigger (nowSince nowReset T : Time) (m : GoMap) (hT : T ≠ 0)
    (hel : nowSince - T < 2 * hour) :
    (sleepsOf (handleNodeRebalanceBackoff nowSince nowReset T m).2 = [4 * hour] ↔
      ∃ h, m.get h ≥ 2) ∧
    ((∃ h, m.get h ≥ 2) →
      (handleNodeRebalanceBackoff nowSince nowReset T m).1.1 = zeroTime ∧
      (checkForMultipleRebalances m 2).1.1 = true ∧
      m.get (checkForMultipleRebalances m 2).1.2 ≥ 2) ∧
    ((∀ h, m.get h < 2) →
      (handleNodeRebalanceBackoff nowSince nowReset T m).1 = (T, m) ∧
      sleepsOf (handleNodeRebalanceBackoff nowSince nowReset T m).2 = [] ∧
      (checkForMultipleRebalances m 2).1 = (false, "")) := by
  have ht : ¬ timeSince nowSince T ≥ 2 * hour := by
    rw [timeSince_ge_two_hours]; exact not_le.mpr hel
  have hyes : (∃ h, m.get h ≥ 2) →
      (handleNodeRebalanceBackoff nowSince nowReset T m).1.1 = zeroTime ∧
      sleepsOf (handleNodeRebalanceBackoff nowSince nowReset T m).2 = [4 * hour] ∧
      (checkForMultipleRebalances m 2).1.1 = true ∧
      m.get (checkForMultipleRebalances m 2).1.2 ≥ 2 := by
    intro hex
    obtain ⟨hfound, hcount⟩ := checkForMultipleRebalances_found m 2 (by decide) hex
    rw [handleNode_penalty nowSince nowReset T m hT ht hfound, sleepsOf_append,
      sleepsOf_checkForMultipleRebalances]
    exact ⟨rfl, rfl, hfound, hcount⟩
  have hno : (∀ h, m.get h < 2) →
      (handleNodeRebalanceBackoff nowSince nowReset T m).1 = (T, m) ∧
      sleepsOf (handleNodeRebalanceBackoff nowSince nowReset T m).2 = [] ∧
      (checkForMultipleRebalances m 2).1 = (false, "") := by
    intro hall
    have hck := checkForMultipleRebalances_none m 2 hall
    rw [handleNode_keep nowSince nowReset T m hT ht (by rw [hck]; simp), hck]
    exact ⟨rfl, rfl, rfl⟩
  refine ⟨⟨?_, fun hex => (hyes hex).2.1⟩, fun hex => ⟨(hyes hex).1, (hyes hex).2.2⟩, hno⟩
  intro hs
  by_contra hne
  have hall : ∀ h, m.get h < 2 := fun h => not_le.mp (fun hge => hne ⟨h, hge⟩)
  rw [(hno hall).2.1] at hs
  exact absurd hs (by simp)

theorem node_backoff_trigger_witness :
    sleepsOf (handleNodeRebalanceBackoff (600 + hour) (601 + hour) 600
      exampleBusyState.nodeRebalanceCount).2 = [4 * hour] ∧
    (handleNodeRebalanceBackoff (600 + hour) (601 + hour) 600 GoMap.empty).1
      = (600, GoMap.empty) :=
  ⟨(node_backoff_trigger (600 + hour) (601 + hour) 600 exampleBusyState.nodeRebalanceCount
      (by decide) (by decide)).1.mpr ⟨"cb2:8091", by decide⟩,
   ((node_backoff_trigger (600 + hour) (601 + hour) 600 GoMap.empty
      (by decide) (by decide)).2.2 (fun h => by rw [GoMap.get_empty]; decide)).1⟩

/-! ## Node penalty and several hostnames at the limit -/

/-- With two hostnames at the node limit, inside the window, the penalty
resets the one that `range` visits first and leaves the other at 2, in either
visiting order. -/
theorem node_penalty_resets_all_counterexample :
    (600 : Time) ≠ 0 ∧ (600 + hour : Time) - 600 < 2 * hour ∧
    twoOffenders.get "cb1:8091" ≥ 2 ∧ twoOffenders.get "cb2:8091" ≥ 2 ∧
    sleepsOf (handleNodeRebalanceBackoff (600 + hour) (601 + hour) 600 twoOffenders).2
      = [4 * hour] ∧
    (handleNodeRebalanceBackoff (600 + hour) (601 + hour) 600 twoOffenders).1.1 = zeroTime ∧
    (handleNodeRebalanceBackoff (600 + hour) (601 + hour) 600 twoOffenders).1.2.get "cb1:8091"
      = 0 ∧
    (handleNodeRebalanceBackoff (600 + hour) (601 + hour) 600 twoOffenders).1.2.get "cb2:8091"
      = 2 ∧
    (handleNodeRebalanceBackoff (600 + hour) (601 + hour) 600
      twoOffendersReversed).1.2.get "cb1:8091" = 2 := by
  decide

/-- Claim C15, amended. In the penalty branch of `handleNodeRebalanceBackoff`
(window start non-zero, less than two hours elapsed, some hostname with count
at least 2) the hostname reported by `checkForMultipleRebalances` ends with
count 0 and every other hostname keeps its count. When exactly one hostname
had a count of at least 2, every hostname whose count was at least 2 has
count 0 afterwards and no hostname remains at or above the limit. -/
theorem node_penalty_resets_single_offender (nowSince nowReset T : Time) (m : GoMap)
    (hT : T ≠ 0) (hel : nowSince - T < 2 * hour) (hex : ∃ h, m.get h ≥ 2) :
    (handleNodeRebalanceBackoff nowSince nowReset T m).1.2.get
      (checkForMultipleRebalances m 2).1.2 = 0 ∧
    (∀ B : String, B ≠ (checkForMultipleRebalances m 2).1.2 →
      (handleNodeRebalanceBackoff nowSince nowReset T m).1.2.get B = m.get B) ∧
    ((∀ h1 h2 : String, m.get h1 ≥ 2 → m.get h2 ≥ 2 → h1 = h2) →
      (∀ h : String, m.get h ≥ 2 →
        (handleNodeRebalanceBackoff nowSince nowReset T m).1.2.get h = 0) ∧
      (∀ h : String, (handleNodeRebalanceBackoff nowSince nowReset T m).1.2.get h < 2)) := by
  have ht : ¬ timeSince nowSince T ≥ 2 * hour := by
    rw [timeSince_ge_two_hours]; exact not_le.mpr hel
  obtain ⟨hfound, hcount⟩ := checkForMultipleRebalances_found m 2 (by decide) hex
  rw [handleNode_penalty nowSince nowReset T m hT ht hfound]
  refine ⟨GoMap.get_set_self _ _ _, fun B hB => GoMap.get_set_ne _ _ _ _ hB, ?_⟩
  intro huniq
  constructor
  · intro h hh
    have : h = (checkForMultipleRebalances m 2).1.2 := huniq h _ hh hcount
    rw [this]
    exact GoMap.get_set_self _ _ _
  · intro h
    by_cases hh : h = (checkForMultipleRebalances m 2).1.2
    · rw [hh]
      show (m.set (checkForMultipleRebalances m 2).1.2 0).get _ < 2
      rw [GoMap.get_set_self]
      decide
    · show (m.set (checkForMultipleRebalances m 2).1.2 0).get h < 2
      rw [GoMap.get_set_ne _ _ _ _ hh]
      by_contra hge
      exact hh (huniq h _ (not_lt.mp hge) hcount)

theorem node_penalty_resets_single_offender_witness :
    exampleBusyState.nodeRebalanceCount.get "cb2:8091" = 2 ∧
    (handleNodeRebalanceBackoff (600 + hour) (601 + hour) 600
      exampleBusyState.nodeRebalanceCount).1.2.get "cb2:8091" = 0 ∧
    (handleNodeRebalanceBackoff (600 + hour) (601 + hour) 600
      exampleBusyState.nodeRebalanceCount).1.2.get "cb1:8091" < 2 := by
  have h := node_penalty_resets_single_offender (600 + hour) (601 + hour) 600
    exampleBusyState.nodeRebalanceCount (by decide) (by decide) ⟨"cb2:8091", by decide⟩
  have huniq : ∀ h1 h2 : String, exampleBusyState.nodeRebalanceCount.get h1 ≥ 2 →
      exampleBusyState.nodeRebalanceCount.get h2 ≥ 2 → h1 = h2 := by
    have key : ∀ h : String, exampleBusyState.nodeRebalanceCount.get h ≥ 2 → h = "cb2:8091" := by
      intro h hh
      by_contra hne
      have h1 : exampleBusyState.nodeRebalanceCount.get h ≤ 1 := by
        simp only [exampleBusyState, GoMap.get, assocGet]
        split_ifs <;> simp_all
      omega
    intro h1 h2 a b
    rw [key h1 a, key h2 b]
  exact ⟨by decide, (h.2.2 huniq).1 "cb2:8091" (by decide), (h.2.2 huniq).2 "cb1:8091"⟩

/-! ## Sleeps of the tracker checks -/

theorem sleepsOf_handleCluster (a b st : Time) (c : Int) :
    sleepsOf (handleClusterRebalanceBackoff a b st c).2 = [] ∨
    (st ≠ 0 ∧ sleepsOf (handleClusterRebalanceBackoff a b st c).2 = [4 * hour]) := by
  by_cases h : st = 0
  · left; rw [handleCluster_inert a b st c h]; rfl
  · by_cases ht : timeSince a st ≥ 2 * hour
    · left; rw [handleCluster_roll a b st c h ht]; rfl
    · by_cases hc : c ≥ 3
      · right; rw [handleCluster_penalty a b st c h ht hc]; exact ⟨h, rfl⟩
      · left; rw [handleCluster_keep a b st c h ht hc]; rfl

theorem sleepsOf_handleNode (a b st : Time) (m : GoMap) :
    sleepsOf (handleNodeRebalanceBackoff a b st m).2 = [] ∨
    (st ≠ 0 ∧ ¬ timeSince a st ≥ 2 * hour ∧
      sleepsOf (handleNodeRebalanceBackoff a b st m).2 = [4 * hour]) := by
  by_cases h : st = 0
  · left; rw [handleNode_inert a b st m h]; rfl
  · by_cases ht : timeSince a st ≥ 2 * hour
    · left
      rw [handleNode_roll a b st m h ht, sleepsOf_append, sleepsOf_checkForMultipleRebalances]
      rfl
    · by_cases hc : (checkForMultipleRebalances m 2).1.1 = true
      · right
        rw [handleNode_penalty a b st m h ht hc, sleepsOf_append,
          sleepsOf_checkForMultipleRebalances]
        exact ⟨h, ht, rfl⟩
      · left
        rw [handleNode_keep a b st m h ht hc, sleepsOf_checkForMultipleRebalances]

/-- Claim C16. The tracker checks of one iteration block for at most four
hours: when the node window start is not later than the clock reading of the
cluster check, and the clock reading of the node check is at least four hours
later whenever the cluster check slept, then a cluster check that performs its
four-hour penalty sleep is followed by a node check that does not sleep (its
tracker is inert or its window rolls), and the sleeps of the two checks
together are none or a single one of four hours. -/
theorem checks_block_at_most_four_hours (env : Env) (s : LoopState)
    (hstart : s.nodeStart ≤ env.clusterSince)
    (hclock : sleepsOf (clusterCheck env s).2 ≠ [] →
      env.clusterSince + 4 * hour ≤ env.nodeSince) :
    (sleepsOf (clusterCheck env s).2 = [4 * hour] →
      sleepsOf (nodeCheck env (clusterCheck env s).1).2 = [] ∧
      ((clusterCheck env s).1.nodeStart = 0 ∨
        ((nodeCheck env (clusterCheck env s).1).1.nodeStart = env.nodeReset ∧
         ∀ h : String, (nodeCheck env (clusterCheck env s).1).1.nodeRebalanceCount.get h = 0))) ∧
    (sleepsOf (trackerChecks env s).2 = [] ∨ sleepsOf (trackerChecks env s).2 = [4 * hour]) := by
  have hfirst : sleepsOf (clusterCheck env s).2 = [4 * hour] →
      sleepsOf (nodeCheck env (clusterCheck env s).1).2 = [] ∧
      ((clusterCheck env s).1.nodeStart = 0 ∨
        ((nodeCheck env (clusterCheck env s).1).1.nodeStart = env.nodeReset ∧
         ∀ h : String,
          (nodeCheck env (clusterCheck env s).1).1.nodeRebalanceCount.get h = 0)) := by
    intro hs
    have hadv := hclock (by rw [hs]; simp)
    have hsame : (clusterCheck env s).1.nodeStart = s.nodeStart := rfl
    have hmap : (clusterCheck env s).1.nodeRebalanceCount = s.nodeRebalanceCount := rfl
    by_cases h0 : s.nodeStart = 0
    · refine ⟨?_, Or.inl (hsame.trans h0)⟩
      simp only [nodeCheck, hsame, hmap, handleNode_inert _ _ _ _ h0]
      rfl
    · have hel : env.nodeSince - s.nodeStart ≥ 2 * hour := by
        have h4 : (2 : Int) * hour ≤ 4 * hour := by decide
        simp only [Time, Duration] at *
        omega
      have hroll := handleNode_roll env.nodeSince env.nodeReset s.nodeStart
        s.nodeRebalanceCount h0 ((timeSince_ge_two_hours _ _).mpr hel)
      refine ⟨?_, Or.inr ⟨?_, ?_⟩⟩
      · simp only [nodeCheck, hsame, hmap, hroll, sleepsOf_append,
          sleepsOf_checkForMultipleRebalances]
        rfl
      · simp only [nodeCheck, hsame, hmap, hroll]
      · intro h
        simp only [nodeCheck, hsame, hmap, hroll]
        rfl
  refine ⟨hfirst, ?_⟩
  have htc : sleepsOf (trackerChecks env s).2 =
      sleepsOf (clusterCheck env s).2 ++ sleepsOf (nodeCheck env (clusterCheck env s).1).2 := by
    simp only [trackerChecks, sleepsOf_append]
  rw [htc]
  rcases sleepsOf_handleCluster env.clusterSince env.clusterReset s.clusterStart
      s.clusterRebalanceCount with hc | ⟨_, hc⟩
  · have hc2 : sleepsOf (clusterCheck env s).2 = [] := hc
    rw [hc2, List.nil_append]
    rcases sleepsOf_handleNode env.nodeSince env.nodeReset (clusterCheck env s).1.nodeStart
        (clusterCheck env s).1.nodeRebalanceCount with hn | ⟨_, _, hn⟩
    · left; exact hn
    · right; exact hn
  · have hc2 : sleepsOf (clusterCheck env s).2 = [4 * hour] := hc
    rw [(hfirst hc2).1, hc2]
    right; rfl

theorem checks_block_at_most_four_hours_witness :
    sleepsOf (clusterCheck { exampleEnv with nodeSince := 1000 + 4 * hour } exampleBusyState).2
      = [4 * hour] ∧
    sleepsOf (nodeCheck { exampleEnv with nodeSince := 1000 + 4 * hour }
      (clusterCheck { exampleEnv with nodeSince := 1000 + 4 * hour } exampleBusyState).1).2
      = [] :=
  ⟨by decide,
   ((checks_block_at_most_four_hours { exampleEnv with nodeSince := 1000 + 4 * hour }
      exampleBusyState (by decide) (fun _ => by decide)).1 (by decide)).1⟩

/-! ## The guard of `main.go:73` -/

/-- An iteration whose detector result has an empty hostname: only the
snapshot fetch, the loop variables of the tracker checks, then the poll
sleep. -/
theorem iteration_without_detected_node (isDryRun : Bool) (env : Env) (s : LoopState)
    (resp : nodesResponse) (hp : env.pools.err = none) (hu : env.unmarshal = Except.ok resp)
    (h : (getFailedNode resp).1.Hostname = "") :
    requestsOf (mainLoopIteration isDryRun env s).trace = [Event.request "/pools/default" none] ∧
    (mainLoopIteration isDryRun env s).state = (trackerChecks env s).1 ∧
    sleepsOf (mainLoopIteration isDryRun env s).trace =
      sleepsOf (trackerChecks env s).2 ++ [1 * minute] := by
  refine ⟨?_, ?_, ?_⟩
  · rw [requestsOf_iteration isDryRun env s resp hp hu, requestsOf_actOnSnapshot]
    simp [h]
  · rw [mainLoopIteration_of_snapshot isDryRun env s resp hp hu, actOnSnapshot_noNode _ _ _ _ h]
  · rw [mainLoopIteration_of_snapshot isDryRun env s resp hp hu, actOnSnapshot_noNode _ _ _ _ h]
    have hlog : sleepsOf (getFailedNode resp).2 = [] := by
      unfold getFailedNode
      dsimp only
      split_ifs <;> rfl
    simp only [sleepsOf_append, hlog]
    have h1 : sleepsOf [Event.request "/pools/default" none] = [] := rfl
    have h2 : sleepsOf [Event.sleep (1 * minute)] = [1 * minute] := rfl
    rw [h1, h2, List.append_nil, List.nil_append]

theorem not_orchestrator_of_tracker (e : Event) (h : isTrackerEvent e = true) :
    isOrchestratorEvent e = false := by
  cases e with
  | log format args =>
    simp only [isTrackerEvent, Bool.or_eq_true, decide_eq_true_eq] at h
    rcases h with (((h | h) | h) | h) | h <;> subst h <;> simp [isOrchestratorEvent]
  | fatal e => rfl
  | request apiPath form => rfl
  | sleep d => rfl

theorem not_orchestrator_of_getFailedNode (resp : nodesResponse) :
    ∀ e ∈ (getFailedNode resp).2, isOrchestratorEvent e = false := by
  intro e he
  unfold getFailedNode at he
  dsimp only at he
  split_ifs at he
  · simp only [List.mem_singleton] at he
    subst he; decide
  · simp only [List.mem_singleton] at he
    subst he; decide
  · simp at he

/-- The events of `recoverNode` begin with a log line of the orchestration. -/
theorem recoverNode_starts_orchestration (node : nodeMap) (isDryRun : Bool)
    (resp : HttpResult) :
    ∃ e ∈ (recoverNode node isDryRun resp).2, isOrchestratorEvent e = true := by
  cases isDryRun
  · rw [recoverNode_live_events]
    exact ⟨_, List.mem_cons_self _ _, by simp [isOrchestratorEvent]⟩
  · rw [recoverNode_dry]
    exact ⟨_, List.mem_cons_self _ _, by simp [isOrchestratorEvent]⟩

/-- What the iteration does with a node that passes the guard of `main.go:73`:
the health-gate log line when the node is not healthy, else every event of
`recoverNode`. -/
theorem orchestration_of_detected (isDryRun : Bool) (env : Env) (s : LoopState)
    (resp : nodesResponse) (n : nodeMap) (hp : env.pools.err = none)
    (hu : env.unmarshal = Except.ok resp) (hone : failedMembers resp = [n])
    (hhost : n.Hostname ≠ "") :
    (n.Status ≠ "healthy" →
      Event.log "%s isn't healthy, trying again later." [LogArg.str n.Hostname]
        ∈ (mainLoopIteration isDryRun env s).trace) ∧
    (n.Status = "healthy" →
      ∀ e ∈ (recoverNode n isDryRun env.recovery).2,
        e ∈ (mainLoopIteration isDryRun env s).trace) := by
  have hfn := getFailedNode_of_single resp n hone
  constructor
  · intro hs
    apply mem_trace_of_mem_act isDryRun env s resp hp hu
    rw [actOnSnapshot_unhealthy _ _ _ _ (by rw [hfn]; exact hhost) (by rw [hfn]; exact hs), hfn]
    simp
  · intro hs e he
    apply mem_trace_of_mem_act isDryRun env s resp hp hu
    by_cases hr : (recoverNode n isDryRun env.recovery).1.2 = none
    · rw [actOnSnapshot_completes _ _ _ _ (by rw [hfn]; exact hhost) (by rw [hfn]; exact hs)
        (by rw [hfn]; exact hr), hfn]
      simp [he]
    · rw [actOnSnapshot_recoverFails _ _ _ _ (by rw [hfn]; exact hhost)
        (by rw [hfn]; exact hs) (by rw [hfn]; exact hr), hfn]
      simp [he]

/-- An iteration whose detector result has an empty hostname holds no event
of the orchestration. -/
theorem no_orchestration_without_detected_node (isDryRun : Bool) (env : Env) (s : LoopState)
    (resp : nodesResponse) (hp : env.pools.err = none) (hu : env.unmarshal = Except.ok resp)
    (h : (getFailedNode resp).1.Hostname = "") :
    runsOrchestrator (mainLoopIteration isDryRun env s).trace = false := by
  unfold runsOrchestrator
  rw [List.any_eq_false]
  intro e he
  rw [mainLoopIteration_of_snapshot isDryRun env s resp hp hu,
    actOnSnapshot_noNode _ _ _ _ h] at he
  simp only [List.mem_append, List.mem_singleton] at he
  rcases he with (he | he) | he | he
  · rw [not_orchestrator_of_tracker e (trackerChecks_events env s e he)]
    simp
  · subst he; simp [isOrchestratorEvent]
  · rw [not_orchestrator_of_getFailedNode resp e he]
    simp
  · subst he; simp [isOrchestratorEvent]

/-- Claim C19. An iteration of the loop runs the orchestration (its trace
holds the health-gate log line or the first log line of `recoverNode`) if and
only if the snapshot has exactly one non-active node and that node has a
non-empty hostname; this is the guard `failedNode.Hostname != ""` of
`main.go:73` on the result of `getFailedNode`. For such a node the iteration
logs the health gate when the node is not healthy and otherwise performs
every event of `recoverNode`. In every other case (no non-active node, two or
more, or a single one whose hostname is empty) the iteration is handled alike:
the only request is the snapshot fetch, the loop variables are those left by
the tracker checks, and the iteration ends with the poll sleep. -/
theorem orchestrator_runs_iff_single_named_node (resp : nodesResponse) :
    ((getFailedNode resp).1.Hostname ≠ "" ↔
      ∃ n, failedMembers resp = [n] ∧ n.Hostname ≠ "") ∧
    ∀ (isDryRun : Bool) (env : Env) (s : LoopState),
      env.pools.err = none → env.unmarshal = Except.ok resp →
      (runsOrchestrator (mainLoopIteration isDryRun env s).trace = true ↔
        ∃ n, failedMembers resp = [n] ∧ n.Hostname ≠ "") ∧
      (∀ n, failedMembers resp = [n] → n.Hostname ≠ "" →
        (n.Status ≠ "healthy" →
          Event.log "%s isn't healthy, trying again later." [LogArg.str n.Hostname]
            ∈ (mainLoopIteration isDryRun env s).trace) ∧
        (n.Status = "healthy" →
          ∀ e ∈ (recoverNode n isDryRun env.recovery).2,
            e ∈ (mainLoopIteration isDryRun env s).trace) ∧
        (n.Status = "healthy" → isDryRun = false →
          recoveryRequest n ∈ (mainLoopIteration isDryRun env s).trace)) ∧
      ((¬ ∃ n, failedMembers resp = [n] ∧ n.Hostname ≠ "") →
        runsOrchestrator (mainLoopIteration isDryRun env s).trace = false ∧
        requestsOf (mainLoopIteration isDryRun env s).trace
          = [Event.request "/pools/default" none] ∧
        (mainLoopIteration isDryRun env s).state = (trackerChecks env s).1 ∧
        sleepsOf (mainLoopIteration isDryRun env s).trace =
          sleepsOf (trackerChecks env s).2 ++ [1 * minute]) ∧
      ((failedMembers resp = [] ∨ (failedMembers resp).length ≥ 2 ∨
          ∃ n, failedMembers resp = [n] ∧ n.Hostname = "") →
        requestsOf (mainLoopIteration isDryRun env s).trace
          = [Event.request "/pools/default" none] ∧
        (mainLoopIteration isDryRun env s).state = (trackerChecks env s).1 ∧
        sleepsOf (mainLoopIteration isDryRun env s).trace =
          sleepsOf (trackerChecks env s).2 ++ [1 * minute]) := by
  have hguard : (getFailedNode resp).1.Hostname ≠ "" ↔
      ∃ n, failedMembers resp = [n] ∧ n.Hostname ≠ "" := by
    constructor
    · intro h
      exact ⟨_, failedMembers_of_detected resp h, h⟩
    · rintro ⟨n, hone, hn⟩
      rw [getFailedNode_of_single resp n hone]
      exact hn
  refine ⟨hguard, ?_⟩
  intro isDryRun env s hp hu
  have hnone : (¬ ∃ n, failedMembers resp = [n] ∧ n.Hostname ≠ "") →
      runsOrchestrator (mainLoopIteration isDryRun env s).trace = false ∧
      requestsOf (mainLoopIteration isDryRun env s).trace
        = [Event.request "/pools/default" none] ∧
      (mainLoopIteration isDryRun env s).state = (trackerChecks env s).1 ∧
      sleepsOf (mainLoopIteration isDryRun env s).trace =
        sleepsOf (trackerChecks env s).2 ++ [1 * minute] := by
    intro hno
    have h0 : (getFailedNode resp).1.Hostname = "" := by
      by_contra hne
      exact hno (hguard.mp hne)
    exact ⟨no_orchestration_without_detected_node isDryRun env s resp hp hu h0,
      iteration_without_detected_node isDryRun env s resp hp hu h0⟩
  have hrun : ∀ n, failedMembers resp = [n] → n.Hostname ≠ "" →
      (n.Status ≠ "healthy" →
        Event.log "%s isn't healthy, trying again later." [LogArg.str n.Hostname]
          ∈ (mainLoopIteration isDryRun env s).trace) ∧
      (n.Status = "healthy" →
        ∀ e ∈ (recoverNode n isDryRun env.recovery).2,
          e ∈ (mainLoopIteration isDryRun env s).trace) ∧
      (n.Status = "healthy" → isDryRun = false →
        recoveryRequest n ∈ (mainLoopIteration isDryRun env s).trace) := by
    intro n hone hhost
    have h := orchestration_of_detected isDryRun env s resp n hp hu hone hhost
    refine ⟨h.1, h.2, ?_⟩
    intro hs hdry
    apply h.2 hs
    rw [hdry, recoverNode_live_events]
    simp
  refine ⟨⟨?_, ?_⟩, hrun, hnone, ?_⟩
  · intro hruns
    by_contra hno
    rw [(hnone hno).1] at hruns
    exact absurd hruns (by decide)
  · rintro ⟨n, hone, hhost⟩
    unfold runsOrchestrator
    rw [List.any_eq_true]
    by_cases hs : n.Status = "healthy"
    · obtain ⟨e, he, hev⟩ := recoverNode_starts_orchestration n isDryRun env.recovery
      exact ⟨e, (hrun n hone hhost).2.1 hs e he, hev⟩
    · exact ⟨_, (hrun n hone hhost).1 hs, by simp [isOrchestratorEvent]⟩
  · intro hcase
    apply (hnone ?_).2
    rintro ⟨n, hone, hhost⟩
    rcases hcase with h0 | h2 | ⟨k, hk, hkh⟩
    · rw [h0] at hone; cases hone
    · rw [hone] at h2; simp at h2
    · rw [hk] at hone
      cases hone
      exact hhost hkh

theorem orchestrator_runs_iff_single_named_node_witness :
    failedMembers exampleSnapshotNoHostname = [exampleNodeNoHostname] ∧
    exampleNodeNoHostname.Status = "healthy" ∧
    requestsOf (mainLoopIteration false exampleEnvNoHostname initialState).trace
      = [Event.request "/pools/default" none] ∧
    (mainLoopIteration false exampleEnvNoHostname initialState).state = initialState ∧
    (failedMembers exampleSnapshotTwoFailed).length = 2 ∧
    (mainLoopIteration false exampleEnvTwoFailed initialState).state = initialState ∧
    runsOrchestrator (mainLoopIteration false exampleEnv initialState).trace = true ∧
    recoveryRequest exampleNode2 ∈ (mainLoopIteration false exampleEnv initialState).trace :=
  ⟨by decide, by decide,
   ((orchestrator_runs_iff_single_named_node exampleSnapshotNoHostname).2 false
      exampleEnvNoHostname initialState rfl rfl).2.2.2
      (Or.inr (Or.inr ⟨exampleNodeNoHostname, by decide, by decide⟩)) |>.1,
   ((orchestrator_runs_iff_single_named_node exampleSnapshotNoHostname).2 false
      exampleEnvNoHostname initialState rfl rfl).2.2.2
      (Or.inr (Or.inr ⟨exampleNodeNoHostname, by decide, by decide⟩)) |>.2.1,
   by decide,
   ((orchestrator_runs_iff_single_named_node exampleSnapshotTwoFailed).2 false
      exampleEnvTwoFailed initialState rfl rfl).2.2.2 (Or.inr (Or.inl (by decide))) |>.2.1,
   ((orchestrator_runs_iff_single_named_node exampleSnapshot).2 false
      exampleEnv initialState rfl rfl).1.mpr ⟨exampleNode2, by decide, by decide⟩,
   (((orchestrator_runs_iff_single_named_node exampleSnapshot).2 false
      exampleEnv initialState rfl rfl).2.1 exampleNode2 (by decide) (by decide)).2.2
      (by decide) rfl⟩

/-! ## The poll sleep and `continue` -/

/-- Claim C12, the code at the failing inputs. An iteration that ends at the
health gate (`main.go:76`) and one whose recovery request fails (`main.go:82`)
do not exit and perform no sleep at all; two such iterations in a row fetch
the snapshot twice with nothing but log lines in between. -/
theorem poll_sleep_skipped_by_continue :
    (mainLoopIteration false exampleEnvUnhealthy initialState).exited = false ∧
    sleepsOf (mainLoopIteration false exampleEnvUnhealthy initialState).trace = [] ∧
    (mainLoopIteration false exampleEnvRecoveryFails initialState).exited = false ∧
    sleepsOf (mainLoopIteration false exampleEnvRecoveryFails initialState).trace = [] ∧
    (runLoop false [exampleEnvUnhealthy, exampleEnvUnhealthy] initialState).2 =
      [Event.request "/pools/default" none,
       Event.log "%s isn't healthy, trying again later." [LogArg.str "cb2:8091"],
       Event.request "/pools/default" none,
       Event.log "%s isn't healthy, trying again later." [LogArg.str "cb2:8091"]] ∧
    (runLoop false [exampleEnvRecoveryFails, exampleEnvRecoveryFails] initialState).2 =
      [Event.request "/pools/default" none,
       Event.log "recovering node %s.\n" [LogArg.str "cb2:8091"],
       recoveryRequest exampleNode2,
       Event.log "Unable to recover node back into cluster. Skipping rebalance." [],
       Event.request "/pools/default" none,
       Event.log "recovering node %s.\n" [LogArg.str "cb2:8091"],
       recoveryRequest exampleNode2,
       Event.log "Unable to recover node back into cluster. Skipping rebalance." []] ∧
    sleepsOf (mainLoopIteration false exampleEnv initialState).trace = [1 * minute] := by
  decide

/-! ## Invariant of the loop variables -/

theorem clusterCheck_cases (env : Env) (s : LoopState) :
    ((clusterCheck env s).1.clusterRebalanceCount = 0 ∨
      ((clusterCheck env s).1.clusterRebalanceCount = s.clusterRebalanceCount ∧
       (clusterCheck env s).1.clusterStart = s.clusterStart ∧
       (s.clusterStart = 0 ∨ ¬ s.clusterRebalanceCount ≥ 3))) ∧
    (clusterCheck env s).1.nodeRebalanceCount = s.nodeRebalanceCount ∧
    (clusterCheck env s).1.nodeStart = s.nodeStart := by
  refine ⟨?_, rfl, rfl⟩
  by_cases h : s.clusterStart = 0
  · right
    simp only [clusterCheck, handleCluster_inert _ _ _ _ h]
    exact ⟨trivial, trivial, Or.inl h⟩
  · by_cases ht : timeSince env.clusterSince s.clusterStart ≥ 2 * hour
    · left
      simp only [clusterCheck, handleCluster_roll _ _ _ _ h ht]
    · by_cases hc : s.clusterRebalanceCount ≥ 3
      · left
        simp only [clusterCheck, handleCluster_penalty _ _ _ _ h ht hc]
      · right
        simp only [clusterCheck, handleCluster_keep _ _ _ _ h ht hc]
        exact ⟨trivial, trivial, Or.inr hc⟩

theorem nodeCheck_counts (env : Env) (s : LoopState)
    (huniq : ∀ h1 h2 : String, s.nodeRebalanceCount.get h1 ≥ 2 →
      s.nodeRebalanceCount.get h2 ≥ 2 → h1 = h2)
    (harmed : (∃ h : String, s.nodeRebalanceCount.get h ≥ 2) → s.nodeStart ≠ 0) :
    ∀ h : String, (nodeCheck env s).1.nodeRebalanceCount.get h ≤ 1 := by
  have hsmall : (¬ ∃ h : String, s.nodeRebalanceCount.get h ≥ 2) →
      ∀ h : String, s.nodeRebalanceCount.get h ≤ 1 := by
    intro hno h
    by_contra hgt
    exact hno ⟨h, by omega⟩
  intro h
  by_cases h0 : s.nodeStart = 0
  · simp only [nodeCheck, handleNode_inert _ _ _ _ h0]
    exact hsmall (fun hex => harmed hex h0) h
  · by_cases ht : timeSince env.nodeSince s.nodeStart ≥ 2 * hour
    · simp only [nodeCheck, handleNode_roll _ _ _ _ h0 ht]
      rw [GoMap.get_empty]
      decide
    · by_cases hex : ∃ k : String, s.nodeRebalanceCount.get k ≥ 2
      · obtain ⟨hfound, hcount⟩ :=
          checkForMultipleRebalances_found s.nodeRebalanceCount 2 (by decide) hex
        simp only [nodeCheck, handleNode_penalty _ _ _ _ h0 ht hfound]
        by_cases hp : h = (checkForMultipleRebalances s.nodeRebalanceCount 2).1.2
        · rw [hp, GoMap.get_set_self]
          decide
        · rw [GoMap.get_set_ne _ _ _ _ hp]
          by_contra hgt
          exact hp (huniq h _ (by omega) hcount)
      · have hall : ∀ k : String, s.nodeRebalanceCount.get k < 2 := fun k => by
          have := hsmall hex k
          omega
        have hck := checkForMultipleRebalances_none s.nodeRebalanceCount 2 hall
        simp only [nodeCheck, handleNode_keep _ _ _ _ h0 ht (by rw [hck]; simp)]
        exact hsmall hex h

theorem trackerChecks_establishes (env : Env) (s : LoopState) (hinv : startInvariant s) :
    afterChecksInvariant (trackerChecks env s).1 := by
  obtain ⟨_, _, huniq, _, harmed, hinert⟩ := hinv
  obtain ⟨hc, hm, hn⟩ := clusterCheck_cases env s
  have hcounts := nodeCheck_counts env (clusterCheck env s).1
    (by rw [hm]; exact huniq) (by rw [hm, hn]; exact harmed)
  have hcl : (trackerChecks env s).1.clusterRebalanceCount =
      (clusterCheck env s).1.clusterRebalanceCount := rfl
  have hcs : (trackerChecks env s).1.clusterStart = (clusterCheck env s).1.clusterStart := rfl
  refine ⟨?_, hcounts, ?_⟩
  · rw [hcl]
    rcases hc with h0 | ⟨heq, _, hz | hlt⟩
    · rw [h0]; decide
    · rw [heq, hinert hz]; decide
    · rw [heq]; omega
  · rw [hcl, hcs]
    intro hz
    rcases hc with h0 | ⟨heq, hst, _⟩
    · exact h0
    · rw [heq]
      exact hinert (hst ▸ hz)

theorem startInvariant_of_afterChecks (s : LoopState) (h : afterChecksInvariant s) :
    startInvariant s := by
  obtain ⟨hc, hcounts, hinert⟩ := h
  refine ⟨by omega, fun h => by have := hcounts h; omega, ?_, ?_, ?_, hinert⟩
  · intro h1 _ hh _
    have := hcounts h1
    omega
  · intro hge
    omega
  · rintro ⟨h, hh⟩
    have := hcounts h
    omega

theorem startInvariant_countAndArm (env : Env) (hostname : String) (s : LoopState)
    (h : afterChecksInvariant s) (hc : env.armCluster ≠ 0) (hn : env.armNode ≠ 0) :
    startInvariant (countAndArm env hostname s) := by
  obtain ⟨hcl, hcounts, _⟩ := h
  have hget : ∀ k : String, k ≠ hostname →
      (countAndArm env hostname s).nodeRebalanceCount.get k = s.nodeRebalanceCount.get k :=
    fun k hk => GoMap.get_set_ne _ _ _ _ hk
  have hself : (countAndArm env hostname s).nodeRebalanceCount.get hostname =
      s.nodeRebalanceCount.get hostname + 1 := GoMap.get_set_self _ _ _
  have honly : ∀ k : String, (countAndArm env hostname s).nodeRebalanceCount.get k ≥ 2 →
      k = hostname := by
    intro k hk
    by_contra hne
    rw [hget k hne] at hk
    have := hcounts k
    omega
  have hcs : (countAndArm env hostname s).clusterStart ≠ 0 := by
    simp only [countAndArm, isZero, beq_iff_eq]
    split_ifs with hz
    · exact hc
    · exact hz
  have hns : (countAndArm env hostname s).nodeStart ≠ 0 := by
    simp only [countAndArm, isZero, beq_iff_eq]
    split_ifs with hz
    · exact hn
    · exact hz
  refine ⟨?_, ?_, ?_, fun _ => hcs, fun _ => hns, fun hz => absurd hz hcs⟩
  · show s.clusterRebalanceCount + 1 ≤ 3
    omega
  · intro k
    by_cases hk : k = hostname
    · rw [hk, hself]
      have := hcounts hostname
      omega
    · rw [hget k hk]
      have := hcounts k
      omega
  · intro h1 h2 a b
    rw [honly h1 a, honly h2 b]

/-- The loop variables after an iteration are those left by the tracker
checks, or those with one more counted cycle. -/
theorem iteration_state_cases (isDryRun : Bool) (env : Env) (s : LoopState) :
    (mainLoopIteration isDryRun env s).state = (trackerChecks env s).1 ∨
    ∃ hostname : String, (mainLoopIteration isDryRun env s).state =
      countAndArm env hostname (trackerChecks env s).1 := by
  cases hp : env.pools.err with
  | some e => left; simp [mainLoopIteration, getNodesState, doCbRequest, hp]
  | none =>
    cases hu : env.unmarshal with
    | error e => left; simp [mainLoopIteration, getNodesState, doCbRequest, hp, hu]
    | ok resp =>
      rw [mainLoopIteration_of_snapshot isDryRun env s resp hp hu]
      by_cases h : (getFailedNode resp).1.Hostname = ""
      · left; rw [actOnSnapshot_noNode _ _ _ _ h]
      · by_cases hs : (getFailedNode resp).1.Status = "healthy"
        · by_cases hr : (recoverNode (getFailedNode resp).1 isDryRun env.recovery).1.2 = none
          · right
            exact ⟨_, by rw [actOnSnapshot_completes _ _ _ _ h hs hr]⟩
          · left; rw [actOnSnapshot_recoverFails _ _ _ _ h hs hr]
        · left; rw [actOnSnapshot_unhealthy _ _ _ _ h hs]

theorem startInvariant_iteration (isDryRun : Bool) (env : Env) (s : LoopState)
    (hinv : startInvariant s) (hc : env.armCluster ≠ 0) (hn : env.armNode ≠ 0) :
    startInvariant (mainLoopIteration isDryRun env s).state := by
  have hmid := trackerChecks_establishes env s hinv
  rcases iteration_state_cases isDryRun env s with h | ⟨hostname, h⟩
  · rw [h]; exact startInvariant_of_afterChecks _ hmid
  · rw [h]; exact startInvariant_countAndArm env hostname _ hmid hc hn

theorem startInvariant_runLoop (isDryRun : Bool) (envs : List Env) (s : LoopState)
    (hinv : startInvariant s)
    (hclock : ∀ env ∈ envs, env.armCluster ≠ 0 ∧ env.armNode ≠ 0) :
    startInvariant (runLoop isDryRun envs s).1 := by
  induction envs generalizing s with
  | nil => exact hinv
  | cons env rest ih =>
    have hstep := startInvariant_iteration isDryRun env s hinv
      (hclock env (List.mem_cons_self _ _)).1 (hclock env (List.mem_cons_self _ _)).2
    unfold runLoop
    dsimp only
    split_ifs
    · exact hstep
    · exact ih _ hstep (fun e he => hclock e (List.mem_cons_of_mem _ he))

theorem startInvariant_initialState : startInvariant initialState := by
  refine ⟨by decide, fun h => by rw [initialState, GoMap.get_empty]; decide, ?_, ?_, ?_,
    fun _ => rfl⟩
  · intro h1 _ hh
    rw [initialState, GoMap.get_empty] at hh
    exact absurd hh (by decide)
  · intro hh
    exact absurd hh (by decide)
  · rintro ⟨h, hh⟩
    rw [initialState, GoMap.get_empty] at hh
    exact absurd hh (by decide)

/-- Claim C18. In every run of the loop from the initial state in which the
clock readings that arm the timers are not the zero time, at the start of
every iteration: the cluster count is at most 3; every hostname count is at
most 2; at most one hostname has a count of at least 2, and it is the one
that `checkForMultipleRebalances` reports; a cluster count of 3 or a hostname
count of 2 comes with a non-zero window start of that tracker; the cluster
count is 0 when the cluster window start is zero. After the two tracker checks
of the iteration the cluster count is at most 2 and every hostname count is
at most 1. -/
theorem reachable_state_invariant (isDryRun : Bool) (envs : List Env)
    (hclock : ∀ env ∈ envs, env.armCluster ≠ 0 ∧ env.armNode ≠ 0) :
    (runLoop isDryRun envs initialState).1.clusterRebalanceCount ≤ 3 ∧
    (∀ h : String, (runLoop isDryRun envs initialState).1.nodeRebalanceCount.get h ≤ 2) ∧
    (∀ h1 h2 : String,
      (runLoop isDryRun envs initialState).1.nodeRebalanceCount.get h1 ≥ 2 →
      (runLoop isDryRun envs initialState).1.nodeRebalanceCount.get h2 ≥ 2 → h1 = h2) ∧
    (∀ h : String, (runLoop isDryRun envs initialState).1.nodeRebalanceCount.get h ≥ 2 →
      (checkForMultipleRebalances
        (runLoop isDryRun envs initialState).1.nodeRebalanceCount 2).1 = (true, h)) ∧
    ((runLoop isDryRun envs initialState).1.clusterRebalanceCount ≥ 3 →
      (runLoop isDryRun envs initialState).1.clusterStart ≠ 0) ∧
    ((∃ h : String, (runLoop isDryRun envs initialState).1.nodeRebalanceCount.get h ≥ 2) →
      (runLoop isDryRun envs initialState).1.nodeStart ≠ 0) ∧
    ((runLoop isDryRun envs initialState).1.clusterStart = 0 →
      (runLoop isDryRun envs initialState).1.clusterRebalanceCount = 0) ∧
    ∀ env : Env,
      (trackerChecks env (runLoop isDryRun envs initialState).1).1.clusterRebalanceCount ≤ 2 ∧
      ∀ h : String,
        (trackerChecks env (runLoop isDryRun envs initialState).1).1.nodeRebalanceCount.get h
          ≤ 1 := by
  have hinv := startInvariant_runLoop isDryRun envs initialState startInvariant_initialState hclock
  obtain ⟨h1, h2, h3, h4, h5, h6⟩ := hinv
  refine ⟨h1, h2, h3, ?_, h4, h5, h6, ?_⟩
  · intro h hh
    obtain ⟨hfound, hcount⟩ := checkForMultipleRebalances_found
      (runLoop isDryRun envs initialState).1.nodeRebalanceCount 2 (by decide) ⟨h, hh⟩
    exact Prod.ext hfound (h3 _ _ hcount hh)
  · intro env
    have hmid := trackerChecks_establishes env _ ⟨h1, h2, h3, h4, h5, h6⟩
    exact ⟨hmid.1, hmid.2.1⟩

theorem reachable_state_invariant_witness :
    (runLoop false [exampleEnv, exampleEnv, exampleEnv] initialState).1.clusterRebalanceCount
      = 3 ∧
    (runLoop false [exampleEnv, exampleEnv] initialState).1.nodeRebalanceCount.get "cb2:8091"
      = 2 ∧
    (runLoop false [exampleEnv, exampleEnv] initialState).1.nodeStart ≠ 0 ∧
    (trackerChecks exampleEnv
      (runLoop false [exampleEnv, exampleEnv] initialState).1).1.nodeRebalanceCount.get
        "cb2:8091" ≤ 1 :=
  ⟨by decide, by decide,
   (reachable_state_invariant false [exampleEnv, exampleEnv] (by decide)).2.2.2.2.2.1
     ⟨"cb2:8091", by decide⟩,
   ((reachable_state_invariant false [exampleEnv, exampleEnv] (by decide)).2.2.2.2.2.2.2
     exampleEnv).2 "cb2:8091"⟩

/-! ## Node penalty and the age of the counted cycles -/

/-- Claim C17, the code at the failing run. In the run `staleCountRun` the
recovery and rebalance cycles of `cb2:8091` are the third and the sixth
iteration, whose timers are armed more than four hours apart. The count of
`cb2:8091` from the third iteration survives the node penalty imposed on
`cb1:8091` in the sixth, so the seventh iteration imposes the four-hour node
penalty on `cb2:8091`, more than four hours after the first of its two
counted cycles. -/
theorem node_penalty_on_cycles_hours_apart :
    requestsOf (runLoop false staleCountRun initialState).2 =
      [Event.request "/pools/default" none, recoveryRequest exampleNode1Failed,
        rebalanceRequest ["ns_1@cb1", "ns_1@cb2", "ns_1@cb3"],
       Event.request "/pools/default" none, recoveryRequest exampleNode1Failed,
        rebalanceRequest ["ns_1@cb1", "ns_1@cb2", "ns_1@cb3"],
       Event.request "/pools/default" none, recoveryRequest exampleNode2,
        rebalanceRequest ["ns_1@cb1", "ns_1@cb2", "ns_1@cb3"],
       Event.request "/pools/default" none, recoveryRequest exampleNode1Failed,
        rebalanceRequest ["ns_1@cb1", "ns_1@cb2", "ns_1@cb3"],
       Event.request "/pools/default" none, recoveryRequest exampleNode1Failed,
        rebalanceRequest ["ns_1@cb1", "ns_1@cb2", "ns_1@cb3"],
       Event.request "/pools/default" none, recoveryRequest exampleNode2,
        rebalanceRequest ["ns_1@cb1", "ns_1@cb2", "ns_1@cb3"]] ∧
    sleepsOf (runLoop false staleCountRun initialState).2 =
      [1 * minute, 1 * minute, 4 * hour, 1 * minute, 1 * minute, 1 * minute, 4 * hour,
        1 * minute] ∧
    (runLoop false staleCountRun initialState).1.nodeRebalanceCount.get "cb2:8091" = 2 ∧
    (runLoop false staleCountRun initialState).1.nodeStart = 1000 + 5 * minute + 8 * hour ∧
    (checkForMultipleRebalances
      (clusterCheck staleCountSeventh
        (runLoop false staleCountRun initialState).1).1.nodeRebalanceCount 2).1
      = (true, "cb2:8091") ∧
    sleepsOf (nodeCheck staleCountSeventh
      (clusterCheck staleCountSeventh (runLoop false staleCountRun initialState).1).1).2
      = [4 * hour] ∧
    (nodeCheck staleCountSeventh
      (clusterCheck staleCountSeventh
        (runLoop false staleCountRun initialState).1).1).1.nodeRebalanceCount.get "cb2:8091"
      = 0 ∧
    staleCountSeventh.nodeSince - (1000 + 2 * minute + 4 * hour) > 4 * hour ∧
    (1000 + 5 * minute + 8 * hour : Time) - (1000 + 2 * minute + 4 * hour) > 4 * hour := by
  decide

end CouchbaseRecovery
